import Mathlib

/-! pdf-generator-service: the API client, the record decoder and the report handler.

A shallow embedding of `internal/api/api_client.go`, `internal/api/student.go`
and `internal/pdf/handler.go`.

* Go strings are Lean strings (so always valid Unicode); Go `int` is `Int`, with
  the 64-bit range checks written out where the code can reject a value.
* A Go `error` is the text of its message; `(T, error)` results are `Except String T`.
* The client's mutable fields are an explicit `APIClient` value threaded through
  every call.  The network is a `World`: a deterministic upstream that answers
  each request from the whole history of requests, the cookie jar as a function
  of that history, and the log of the requests issued so far.
* `strings.TrimPrefix`, `strings.Split`, `strings.Join`, `strconv.Atoi` and
  `http.Error` are written out.  The other functions of the standard library that
  the client calls (`json.Marshal`, `json.Unmarshal`, `url.Parse`,
  `cookiejar.New`) and the PDF typesetter are fields of `Lib`; every theorem about
  the client holds for all of them.
* For the round trip of a record the mapping of `encoding/json` between Go values
  and JSON documents is written out on syntax trees (`JSON`, `Value`,
  `decodeEnvelope`); `treeLib` plugs it into the client.
* Logging (`log.Printf`) and the mutex are not modelled: the embedding is
  sequential.
-/

namespace PdfGenerator

/-! ## Strings -/

/-- Go `strings.TrimPrefix` on character lists. -/
def trimPrefixChars (pre s : List Char) : List Char :=
  if pre.isPrefixOf s then s.drop pre.length else s

/-- Go `strings.TrimPrefix(s, prefix)`. -/
def TrimPrefix (s pre : String) : String :=
  String.mk (trimPrefixChars pre.toList s.toList)

/-- Go `strings.Split` for a one-character separator, on character lists: the
pieces between the separators, `n + 1` pieces for `n` separators. -/
def splitChars (sep : Char) : List Char → List (List Char)
  | [] => [[]]
  | c :: cs =>
    if c = sep then [] :: splitChars sep cs
    else
      match splitChars sep cs with
      | [] => [[c]]
      | p :: ps => (c :: p) :: ps

/-- Go `strings.Split(s, "/")`. -/
def SplitSlash (s : String) : List String :=
  (splitChars '/' s.toList).map String.mk

/-- Go `strings.Join(parts, sep)`. -/
def Join (parts : List String) (sep : String) : String :=
  match parts with
  | [] => ""
  | p :: ps => ps.foldl (fun acc q => acc ++ sep ++ q) p

/-- The value of a decimal digit character, `none` for any other character. -/
def digitVal (ch : Char) : Option Nat :=
  if '0' ≤ ch ∧ ch ≤ '9' then some (ch.toNat - '0'.toNat) else none

/-- The loop of `strconv.ParseUint` in base 10 without the overflow check:
`n = n*10 + digit`, a syntax error (`none`) at the first non-digit. -/
def parseDigits : List Char → Nat → Option Nat
  | [], n => some n
  | ch :: rest, n =>
    match digitVal ch with
    | none => none
    | some d => parseDigits rest (n * 10 + d)

/-- Go `strconv.Atoi` on a 64-bit platform: an optional sign, then one or more
decimal digits, and the value must fit `int` (`-2^63 ≤ n < 2^63`); `none` stands
for the `*NumError` (syntax or range). -/
def Atoi (s : String) : Option Int :=
  match s.toList with
  | [] => none
  | c :: cs =>
    let neg := c = '-'
    let digits := if c = '-' ∨ c = '+' then cs else c :: cs
    if digits = [] then none
    else
      match parseDigits digits 0 with
      | none => none
      | some un =>
        if neg then
          if un ≤ 2 ^ 63 then some (-(un : Int)) else none
        else
          if un < 2 ^ 63 then some (un : Int) else none

/-! ## Data model -/

/-- The fields of `http.Cookie` the client reads. -/
structure Cookie where
  Name : String
  Value : String
  deriving DecidableEq, Repr

/-- The login request body, `type LoginRequest`. -/
structure LoginRequest where
  Username : String
  Password : String
  deriving DecidableEq, Repr

/-- The decoded login response body, `type LoginResponse`. -/
structure LoginResponse where
  ID : Int
  Name : String
  Email : String
  Role : String
  Token : String
  deriving DecidableEq, Repr

/-- The record, `type Student`: a nil pointer is `none`. -/
structure Student where
  ID : Int
  Name : String
  Email : String
  SystemAccess : Bool
  Phone : Option String
  Gender : Option String
  DOB : Option String
  Class : Option String
  Section : Option String
  Roll : Option Int
  FatherName : Option String
  FatherPhone : Option String
  MotherName : Option String
  MotherPhone : Option String
  GuardianName : Option String
  GuardianPhone : Option String
  RelationOfGuardian : Option String
  CurrentAddress : Option String
  PermanentAddress : Option String
  AdmissionDate : Option String
  ReporterName : Option String
  deriving DecidableEq, Repr

/-- The envelope, `type APIResponse`; `V` is the untyped payload (`interface{}`). -/
structure APIResponse (V : Type) where
  Success : Bool
  Data : V
  Message : String

/-- The parts of `url.URL` that `getCsrfToken` uses. -/
structure URL where
  Scheme : String
  Host : String
  Path : String
  deriving DecidableEq, Repr

/-- An outgoing `http.Request` as the client builds it. -/
structure Request where
  Method : String
  URL : String
  Header : List (String × String)
  Body : Option String
  deriving DecidableEq, Repr

/-- Go `Header.Set`: replace the value stored under the key, or add the key. -/
def setHeader (h : List (String × String)) (k v : String) : List (String × String) :=
  if h.any (fun p => p.1 = k) then h.map (fun p => if p.1 = k then (k, v) else p)
  else h ++ [(k, v)]

/-- Go `req.Header.Set(k, v)`. -/
def Request.Set (r : Request) (k v : String) : Request :=
  { r with Header := setHeader r.Header k v }

/-- Go `Header.Get`: the value stored under the key, if any. -/
def Request.Get (r : Request) (k : String) : Option String :=
  (r.Header.find? (fun p => p.1 = k)).map (fun p => p.2)

/-- What the client sees of an `http.Response`: the status code, the parsed
`Set-Cookie` headers (`resp.Cookies()`), and the result of `io.ReadAll(resp.Body)`. -/
structure Response where
  StatusCode : Nat
  Cookies : List Cookie
  Body : Except String String

/-- The process environment read by the client. -/
structure Env where
  NODE_API_URL : String
  AUTH_EMAIL : String
  AUTH_PASSWORD : String
  deriving DecidableEq, Repr

/-- Standard-library and third-party functions the repository code calls and
only branches on.  `V` is the type of an untyped decoded payload. -/
structure Lib (V : Type) where
  /-- Go `json.Marshal(loginReq)`. -/
  marshalLoginRequest : LoginRequest → Except String String
  /-- Go `url.Parse`. -/
  urlParse : String → Except String URL
  /-- Go `json.Unmarshal(body, &loginResp)`. -/
  unmarshalLoginResponse : String → Except String LoginResponse
  /-- Go `json.Unmarshal(body, &apiResponse)`. -/
  unmarshalAPIResponse : String → Except String (APIResponse V)
  /-- Go `json.Marshal(apiResponse.Data)`. -/
  marshalData : V → Except String String
  /-- Go `json.Unmarshal(studentData, &student)`. -/
  unmarshalStudent : String → Except String Student
  /-- Whether `cookiejar.New(nil)` succeeds. -/
  cookiejarNew : Bool
  /-- Go `PDFGenerator.GenerateStudentReport` (typesetting by gofpdf). -/
  generatePDF : Student → Except String String

/-- The network and the cookie jar of the HTTP client.  `upstream` answers the
last request of a history (`httpClient.Do`: a transport error or a response);
`jar` is what `Jar.Cookies(u)` returns after a history; `sent` is the history. -/
structure World where
  upstream : List Request → Except String Response
  jar : List Request → URL → List Cookie
  sent : List Request

/-- Go `c.httpClient.Do(req)`: the request is appended to the history and the
upstream answers it. -/
def World.Do (w : World) (req : Request) : Except String Response × World :=
  (w.upstream (w.sent ++ [req]), { w with sent := w.sent ++ [req] })

/-- The client, `type APIClient`: `hasJar` says whether `httpClient.Jar` is non-nil. -/
structure APIClient where
  baseURL : String
  hasJar : Bool
  authenticated : Bool
  authToken : String
  refreshToken : String
  csrfToken : String
  deriving DecidableEq, Repr

/-- The default of `NODE_API_URL`. -/
def DefaultNodeAPIURL : String := "http://localhost:5007/api/v1"

/-- Go `NewAPIClient`: the base URL from the environment or the default, a fresh
jar when one can be made, all session fields at their zero value. -/
def NewAPIClient {V : Type} (lib : Lib V) (env : Env) : APIClient :=
  { baseURL := if env.NODE_API_URL = "" then DefaultNodeAPIURL else env.NODE_API_URL
    hasJar := lib.cookiejarNew
    authenticated := false
    authToken := ""
    refreshToken := ""
    csrfToken := "" }

/-- Go `http.NewRequest(method, url, body)` for the two valid methods the client
uses: it fails exactly when the URL does not parse. -/
def NewRequest {V : Type} (lib : Lib V) (method url : String) (body : Option String) :
    Except String Request :=
  match lib.urlParse url with
  | .error e => .error e
  | .ok _ => .ok { Method := method, URL := url, Header := [], Body := body }

/-! ## Authentication (`api_client.go`, lines 76-167) -/

/-- Lines 77-101 of `authenticate`: the login request, or the error returned
before any network call. -/
def loginRequest {V : Type} (lib : Lib V) (env : Env) (c : APIClient) : Except String Request :=
  let email := env.AUTH_EMAIL
  let password := env.AUTH_PASSWORD
  if email = "" ∨ password = "" then
    .error "AUTH_EMAIL and AUTH_PASSWORD must be set in environment"
  else
    match lib.marshalLoginRequest { Username := email, Password := password } with
    | .error e => .error ("failed to marshal login request: " ++ e)
    | .ok jsonBody =>
      match NewRequest lib "POST" (c.baseURL ++ "/auth/login") (some jsonBody) with
      | .error e => .error ("failed to create login request: " ++ e)
      | .ok req =>
        .ok ((req.Set "Content-Type" "application/json").Set "Accept" "application/json")

/-- The body of the loop at lines 134-147 of `authenticate` for one cookie. -/
def storeCookie (c : APIClient) (cookie : Cookie) : APIClient :=
  let c1 := if cookie.Name = "accessToken" ∧ cookie.Value ≠ "" then
    { c with authToken := cookie.Value } else c
  let c2 := if cookie.Name = "refreshToken" ∧ cookie.Value ≠ "" then
    { c1 with refreshToken := cookie.Value } else c1
  if cookie.Name = "csrfToken" ∧ cookie.Value ≠ "" then
    { c2 with csrfToken := cookie.Value } else c2

/-- Lines 130-148 of `authenticate`: set the flag, then run the loop over the
cookies in order. -/
def storeSession (c : APIClient) (cookies : List Cookie) : APIClient :=
  cookies.foldl storeCookie { c with authenticated := true }

/-- Lines 108-151 of `authenticate`: what the client does with a login response. -/
def loginOutcome {V : Type} (lib : Lib V) (c : APIClient) (resp : Response) :
    Except String Unit × APIClient :=
  let cookies := resp.Cookies
  match resp.Body with
  | .error e => (.error ("failed to read login response body: " ++ e), c)
  | .ok body =>
    if resp.StatusCode ≠ 200 then
      (.error ("login failed with status " ++ toString resp.StatusCode ++ ": " ++ body), c)
    else
      match lib.unmarshalLoginResponse body with
      | .error e => (.error ("failed to parse login response: " ++ e), c)
      | .ok loginResp =>
        if loginResp.ID = 0 then (.error "login failed: invalid response", c)
        else (.ok (), storeSession c cookies)

/-- Go `(*APIClient).authenticate`. -/
def authenticate {V : Type} (lib : Lib V) (env : Env) (c : APIClient) (w : World) :
    Except String Unit × APIClient × World :=
  match loginRequest lib env c with
  | .error e => (.error e, c, w)
  | .ok req =>
    match w.Do req with
    | (.error e, w1) => (.error ("failed to make login request: " ++ e), c, w1)
    | (.ok resp, w1) =>
      let r := loginOutcome lib c resp
      (r.1, r.2, w1)

/-- Go `(*APIClient).isAuthenticated`. -/
def isAuthenticated (c : APIClient) : Bool := c.authenticated

/-- Go `(*APIClient).ensureAuthenticated`. -/
def ensureAuthenticated {V : Type} (lib : Lib V) (env : Env) (c : APIClient) (w : World) :
    Except String Unit × APIClient × World :=
  if !isAuthenticated c then authenticate lib env c w else (.ok (), c, w)

/-- The loop at lines 201-210 of `getCsrfToken`: the value of the first cookie
named `csrfToken`. -/
def findCsrfCookie (cookies : List Cookie) : Option String :=
  (cookies.find? (fun cookie => cookie.Name = "csrfToken")).map (fun cookie => cookie.Value)

/-- The loop at lines 191-211 of `getCsrfToken` over the candidate paths. -/
def searchJar (jar : URL → List Cookie) (base : URL) : List String → Option String
  | [] => none
  | path :: rest =>
    match findCsrfCookie (jar { Scheme := base.Scheme, Host := base.Host, Path := path }) with
    | some v => some v
    | none => searchJar jar base rest

/-- The candidate paths of `getCsrfToken`, in the order they are tried. -/
def possiblePaths : List String := ["/", "/auth", "/auth/login"]

/-- Go `(*APIClient).getCsrfToken`: the cached token if there is one, otherwise
the first `csrfToken` cookie the jar holds under the candidate paths, which is
then cached. -/
def getCsrfToken {V : Type} (lib : Lib V) (c : APIClient) (w : World) : String × APIClient :=
  if c.csrfToken ≠ "" then (c.csrfToken, c)
  else if !c.hasJar then ("", c)
  else
    match lib.urlParse c.baseURL with
    | .error _ => ("", c)
    | .ok baseURL =>
      match searchJar (w.jar w.sent) baseURL possiblePaths with
      | some v => (v, { c with csrfToken := v })
      | none => ("", c)

/-! ## Fetching a record (`api_client.go`, lines 217-333) -/

/-- The closure `createRequest` of `GetStudentByID` (lines 223-267), reading the
session fields of `c`. -/
def createRequest {V : Type} (lib : Lib V) (c : APIClient) (id : String) : Except String Request :=
  match NewRequest lib "GET" (c.baseURL ++ "/students/" ++ id) none with
  | .error e => .error ("failed to create request: " ++ e)
  | .ok req0 =>
    let req1 := (req0.Set "Content-Type" "application/json").Set "Accept" "application/json"
    let parts0 : List String := []
    let parts1 := if c.authToken ≠ "" then parts0 ++ ["accessToken=" ++ c.authToken] else parts0
    let parts2 := if c.refreshToken ≠ "" then parts1 ++ ["refreshToken=" ++ c.refreshToken]
      else parts1
    let cookieParts := if c.csrfToken ≠ "" then parts2 ++ ["csrfToken=" ++ c.csrfToken]
      else parts2
    let req2 := if cookieParts.length > 0 then req1.Set "Cookie" (Join cookieParts "; ") else req1
    let req3 := if c.csrfToken ≠ "" then req2.Set "x-csrf-token" c.csrfToken else req2
    .ok req3

/-- Lines 219-301 of `GetStudentByID`: authenticate if needed, send the record
request, and on a 401 invalidate the session, log in again and send the request
once more.  The result is the final response or the error returned on the way. -/
def GetStudentByID.exchange {V : Type} (lib : Lib V) (env : Env) (c : APIClient) (w : World)
    (id : String) : Except String Response × APIClient × World :=
  let a := ensureAuthenticated lib env c w
  match a.1 with
  | .error e => (.error ("failed to authenticate: " ++ e), a.2.1, a.2.2)
  | .ok _ =>
    match createRequest lib a.2.1 id with
    | .error e => (.error e, a.2.1, a.2.2)
    | .ok req =>
      let d := a.2.2.Do req
      match d.1 with
      | .error e => (.error ("failed to make request to Node.js API: " ++ e), a.2.1, d.2)
      | .ok resp =>
        if resp.StatusCode = 401 then
          let b := authenticate lib env { a.2.1 with authenticated := false } d.2
          match b.1 with
          | .error e => (.error ("failed to re-authenticate after 401: " ++ e), b.2.1, b.2.2)
          | .ok _ =>
            match createRequest lib b.2.1 id with
            | .error e => (.error e, b.2.1, b.2.2)
            | .ok retryReq =>
              let d2 := b.2.2.Do retryReq
              match d2.1 with
              | .error e =>
                (.error ("failed to retry request after re-authentication: " ++ e), b.2.1, d2.2)
              | .ok resp2 => (.ok resp2, b.2.1, d2.2)
        else (.ok resp, a.2.1, d.2)

/-- Lines 304-332 of `GetStudentByID`: read the final response, check the status
and the envelope, and decode the payload in two stages. -/
def GetStudentByID.decode {V : Type} (lib : Lib V) (resp : Response) : Except String Student :=
  match resp.Body with
  | .error e => .error ("failed to read response body: " ++ e)
  | .ok body =>
    if resp.StatusCode ≠ 200 then
      .error ("API returned status " ++ toString resp.StatusCode ++ ": " ++ body)
    else
      match lib.unmarshalAPIResponse body with
      | .error e => .error ("failed to parse API response: " ++ e)
      | .ok apiResponse =>
        if !apiResponse.Success then .error ("API request failed: " ++ apiResponse.Message)
        else
          match lib.marshalData apiResponse.Data with
          | .error e => .error ("failed to marshal student data: " ++ e)
          | .ok studentData =>
            match lib.unmarshalStudent studentData with
            | .error e => .error ("failed to unmarshal student data: " ++ e)
            | .ok student => .ok student

/-- Go `(*APIClient).GetStudentByID`. -/
def GetStudentByID {V : Type} (lib : Lib V) (env : Env) (c : APIClient) (w : World)
    (id : String) : Except String Student × APIClient × World :=
  let x := GetStudentByID.exchange lib env c w id
  match x.1 with
  | .error e => (.error e, x.2.1, x.2.2)
  | .ok resp => (GetStudentByID.decode lib resp, x.2.1, x.2.2)

/-! ## The report handler (`handler.go`, lines 14-67) -/

/-- What the handler writes to its `http.ResponseWriter`. -/
structure ResponseRecorder where
  Code : Nat
  Header : List (String × String)
  Body : String
  deriving DecidableEq, Repr

/-- Go `http.Error(w, msg, code)`: a plain-text reply, the message followed by a
newline. -/
def httpError (msg : String) (code : Nat) : ResponseRecorder :=
  { Code := code
    Header := [("Content-Type", "text/plain; charset=utf-8"), ("X-Content-Type-Options", "nosniff")]
    Body := msg ++ "\n" }

/-- Go `GenerateStudentReport(w, r)` for a request whose `r.URL.Path` is `urlPath`:
the reply written, and the world after the network calls made. -/
def GenerateStudentReport {V : Type} (lib : Lib V) (env : Env) (w : World) (urlPath : String) :
    ResponseRecorder × World :=
  let path := TrimPrefix urlPath "/api/v1/students/"
  let parts := SplitSlash path
  if parts.length < 2 ∨ parts.get? 1 ≠ some "report" then
    (httpError "Invalid URL format. Expected: /api/v1/students/\x7bid\x7d/report" 400, w)
  else
    let studentIDStr := parts.headD ""
    match Atoi studentIDStr with
    | none => (httpError "Invalid student ID" 400, w)
    | some studentID =>
      let apiClient := NewAPIClient lib env
      let g := GetStudentByID lib env apiClient w studentIDStr
      match g.1 with
      | .error e => (httpError ("Failed to fetch student data: " ++ e) 500, g.2.2)
      | .ok student =>
        match lib.generatePDF student with
        | .error e => (httpError ("Failed to generate PDF: " ++ e) 500, g.2.2)
        | .ok pdfBytes =>
          ({ Code := 200
             Header := [("Content-Type", "application/pdf"),
               ("Content-Disposition",
                 "attachment; filename=\"student_" ++ toString studentID ++ "_report.pdf\""),
               ("Content-Length", toString pdfBytes.utf8ByteSize)]
             Body := pdfBytes }, g.2.2)

/-- The pieces of a request path that the handler inspects (lines 17-18 of
`handler.go`): the path without the route prefix, split on `/`. -/
def requestParts (urlPath : String) : List String :=
  SplitSlash (TrimPrefix urlPath "/api/v1/students/")

/-- A login request: the only `POST` the client issues. -/
def isLoginRequest (r : Request) : Bool := r.Method == "POST"

/-- A record request: the only `GET` the client issues. -/
def isRecordRequest (r : Request) : Bool := r.Method == "GET"

/-! ## Concrete upstreams used to evaluate the client -/

/-- A decoder table for the bodies that the sample upstreams send. -/
def sampleLib : Lib Unit :=
  { marshalLoginRequest := fun r => .ok (r.Username ++ ":" ++ r.Password)
    urlParse := fun _ => .ok { Scheme := "http", Host := "localhost:5007", Path := "/api/v1" }
    unmarshalLoginResponse := fun body =>
      if body = "\x7b\"id\":1\x7d" then .ok { ID := 1, Name := "", Email := "", Role := "", Token := "" }
      else if body = "\x7b\"id\":0\x7d" then
        .ok { ID := 0, Name := "", Email := "", Role := "", Token := "" }
      else .error "invalid character"
    unmarshalAPIResponse := fun body =>
      if body = "\x7b\"success\":true\x7d" then .ok { Success := true, Data := (), Message := "" }
      else if body = "\x7b\"success\":false,\"message\":\"not found\"\x7d" then
        .ok { Success := false, Data := (), Message := "not found" }
      else .error "invalid character"
    marshalData := fun _ => .ok "\x7b\"id\":1,\"name\":\"John Doe\"\x7d"
    unmarshalStudent := fun _ =>
      .ok { ID := 1, Name := "John Doe", Email := "", SystemAccess := false, Phone := none,
            Gender := none, DOB := none, Class := none, Section := none, Roll := none,
            FatherName := none, FatherPhone := none, MotherName := none, MotherPhone := none,
            GuardianName := none, GuardianPhone := none, RelationOfGuardian := none,
            CurrentAddress := none, PermanentAddress := none, AdmissionDate := none,
            ReporterName := none }
    cookiejarNew := true
    generatePDF := fun _ => .ok "%PDF" }

/-- An environment with the login credentials set. -/
def sampleEnv : Env :=
  { NODE_API_URL := "", AUTH_EMAIL := "admin@school.com", AUTH_PASSWORD := "secret" }

/-- A world in which nothing has been sent yet and whose upstream answers the
`n`-th request with the `n`-th response of `script` (a transport error once the
script is used up); the jar holds `jarCookies` under every URL. -/
def scriptedWorld (script : List Response) (jarCookies : List Cookie) : World :=
  { upstream := fun hist =>
      match script.get? (hist.length - 1) with
      | some r => .ok r
      | none => .error "connection refused"
    jar := fun _ _ => jarCookies
    sent := [] }

/-- A login response that is accepted and sets all three cookies. -/
def okLogin : Response :=
  { StatusCode := 200
    Cookies := [⟨"accessToken", "a1"⟩, ⟨"refreshToken", "r1"⟩, ⟨"csrfToken", "x1"⟩]
    Body := .ok "\x7b\"id\":1\x7d" }

/-- A record response with status 401. -/
def unauthorized : Response :=
  { StatusCode := 401, Cookies := [], Body := .ok "Unauthorized" }

/-- A login response with status 500. -/
def rejectedLogin : Response :=
  { StatusCode := 500, Cookies := [], Body := .ok "boom" }

/-- The status code of the answer to a request, when there is an answer. -/
def statusOf (r : Except String Response) : Option Nat :=
  match r with
  | .ok resp => some resp.StatusCode
  | .error _ => none

/-- The error text of a result, when it is an error. -/
def errorOf {α : Type} (r : Except String α) : Option String :=
  match r with
  | .ok _ => none
  | .error e => some e

/-- The requests a call has added to the log of the world it started from. -/
def issuedSince (w after : World) : List Request :=
  after.sent.drop w.sent.length

/-- The login request the client builds in `sampleEnv` against the default base URL. -/
def sampleLoginRequest : Request :=
  { Method := "POST"
    URL := "http://localhost:5007/api/v1/auth/login"
    Header := [("Content-Type", "application/json"), ("Accept", "application/json")]
    Body := some "admin@school.com:secret" }

/-- The client after `okLogin` has been accepted. -/
def sampleSession : APIClient :=
  { baseURL := "http://localhost:5007/api/v1", hasJar := true, authenticated := true
    authToken := "a1", refreshToken := "r1", csrfToken := "x1" }

/-- The record request for identifier `1` built from `sampleSession`. -/
def sampleRecordRequest : Request :=
  { Method := "GET"
    URL := "http://localhost:5007/api/v1/students/1"
    Header := [("Content-Type", "application/json"), ("Accept", "application/json"),
      ("Cookie", "accessToken=a1; refreshToken=r1; csrfToken=x1"), ("x-csrf-token", "x1")]
    Body := none }

/-- An upstream that accepts every login and answers every record request with 401. -/
def alwaysUnauthorized : World :=
  scriptedWorld [okLogin, unauthorized, okLogin, unauthorized] []

/-- The value of the last cookie of a cookie set that has the given name and a
non-empty value, if there is one. -/
def lastCookieValue (name : String) : List Cookie → Option String
  | [] => none
  | k :: ks =>
    match lastCookieValue name ks with
    | some v => some v
    | none => if k.Name = name ∧ k.Value ≠ "" then some k.Value else none

/-- A login response with status 200 whose body decodes with identity id 0, and
which nevertheless sets cookies. -/
def zeroIdLogin : Response :=
  { StatusCode := 200
    Cookies := [⟨"accessToken", "a0"⟩, ⟨"csrfToken", "x0"⟩]
    Body := .ok "\x7b\"id\":0\x7d" }

/-- A login response that is accepted, sets the access token twice, the
anti-forgery token with an empty value, and no refresh token. -/
def partialLogin : Response :=
  { StatusCode := 200
    Cookies := [⟨"accessToken", "old"⟩, ⟨"csrfToken", ""⟩, ⟨"accessToken", "new"⟩]
    Body := .ok "\x7b\"id\":1\x7d" }

/-- A second accepted login response, with new values for the three cookies. -/
def refreshedLogin : Response :=
  { StatusCode := 200
    Cookies := [⟨"accessToken", "a2"⟩, ⟨"refreshToken", "r2"⟩, ⟨"csrfToken", "x2"⟩]
    Body := .ok "\x7b\"id\":1\x7d" }

/-- The client after `refreshedLogin` has been accepted. -/
def refreshedSession : APIClient :=
  { baseURL := "http://localhost:5007/api/v1", hasJar := true, authenticated := true
    authToken := "a2", refreshToken := "r2", csrfToken := "x2" }

/-- The record request for identifier `1` built from `refreshedSession`. -/
def refreshedRecordRequest : Request :=
  { Method := "GET"
    URL := "http://localhost:5007/api/v1/students/1"
    Header := [("Content-Type", "application/json"), ("Accept", "application/json"),
      ("Cookie", "accessToken=a2; refreshToken=r2; csrfToken=x2"), ("x-csrf-token", "x2")]
    Body := none }

/-- A record response with status 200 and a successful envelope. -/
def okRecord : Response :=
  { StatusCode := 200, Cookies := [], Body := .ok "\x7b\"success\":true\x7d" }

/-- The record that `sampleLib` decodes from the payload of `okRecord`. -/
def johnDoe : Student :=
  { ID := 1, Name := "John Doe", Email := "", SystemAccess := false, Phone := none,
    Gender := none, DOB := none, Class := none, Section := none, Roll := none,
    FatherName := none, FatherPhone := none, MotherName := none, MotherPhone := none,
    GuardianName := none, GuardianPhone := none, RelationOfGuardian := none,
    CurrentAddress := none, PermanentAddress := none, AdmissionDate := none,
    ReporterName := none }

/-- An upstream whose session expires once: login, 401, login, record. -/
def expiredOnce : World :=
  scriptedWorld [okLogin, unauthorized, refreshedLogin, okRecord] []

/-- A record response with status 404 and an envelope with `success = false`. -/
def notFound : Response :=
  { StatusCode := 404, Cookies := []
    Body := .ok "\x7b\"success\":false,\"message\":\"not found\"\x7d" }

/-- Whether the text `sub` occurs in the text `s`. -/
def containsText (s sub : String) : Bool := decide (sub.toList <:+: s.toList)

/-! ## Reachable sessions -/

/-- A login response that `authenticate` accepts: status 200 and a body that
decodes with a non-zero identity id. -/
def Accepted {V : Type} (lib : Lib V) (resp : Response) : Prop :=
  resp.StatusCode = 200 ∧
    ∃ body lr, resp.Body = .ok body ∧ lib.unmarshalLoginResponse body = .ok lr ∧ lr.ID ≠ 0

/-- The response `resp` answered a login request of the log of `w`. -/
def AnsweredLogin (w : World) (resp : Response) : Prop :=
  ∃ pre req post, w.sent = pre ++ req :: post ∧ isLoginRequest req = true ∧
    w.upstream (pre ++ [req]) = .ok resp

/-- The states of a client and its world that can be reached from a freshly
constructed client by calls of `authenticate` and `GetStudentByID`, in any
environment and for any identifier, against a given upstream and jar. -/
inductive Reachable {V : Type} (lib : Lib V) (upstream : List Request → Except String Response)
    (jar : List Request → URL → List Cookie) : APIClient → World → Prop
  | fresh (env : Env) :
    Reachable lib upstream jar (NewAPIClient lib env)
      { upstream := upstream, jar := jar, sent := [] }
  | authenticate (env : Env) (c : APIClient) (w : World) :
    Reachable lib upstream jar c w →
    Reachable lib upstream jar (authenticate lib env c w).2.1 (authenticate lib env c w).2.2
  | getStudent (env : Env) (id : String) (c : APIClient) (w : World) :
    Reachable lib upstream jar c w →
    Reachable lib upstream jar (GetStudentByID lib env c w id).2.1
      (GetStudentByID lib env c w id).2.2

/-- The invariant of the session: the flag is set only after an accepted login,
and a stored access token is the last non-empty `accessToken` cookie of an
accepted login response. -/
def SessionInv {V : Type} (lib : Lib V) (c : APIClient) (w : World) : Prop :=
  (c.authenticated = true → ∃ resp, AnsweredLogin w resp ∧ Accepted lib resp) ∧
  (c.authToken ≠ "" → ∃ resp, AnsweredLogin w resp ∧ Accepted lib resp ∧
    lastCookieValue "accessToken" resp.Cookies = some c.authToken)

/-- A login response that is accepted and sets no cookie at all. -/
def bareLogin : Response :=
  { StatusCode := 200, Cookies := [], Body := .ok "\x7b\"id\":1\x7d" }

/-- The record request for identifier `1` built from a session without tokens. -/
def bareRecordRequest : Request :=
  { Method := "GET"
    URL := "http://localhost:5007/api/v1/students/1"
    Header := [("Content-Type", "application/json"), ("Accept", "application/json")]
    Body := none }

/-- A world whose login sets no cookie on the response the client sees, while
the cookie jar holds a `csrfToken` cookie. -/
def tokenOnlyInJar : World :=
  scriptedWorld [bareLogin, okRecord] [⟨"sid", "s1"⟩, ⟨"csrfToken", "jar-token"⟩]

/-- The body of an envelope with `success = false` whose message is `a"b`, as
JSON writes it: the quote inside the message is escaped. -/
def escapedBody : String := "\x7b\"success\":false,\"message\":\"a\\\"b\"\x7d"

/-- A record response with status 404 and the body `escapedBody`. -/
def escapedNotFound : Response :=
  { StatusCode := 404, Cookies := [], Body := .ok escapedBody }

/-- The library `sampleLib` with an envelope decoder that knows `escapedBody`:
it decodes to `success = false` and the message `a"b`. -/
def escapingLib : Lib Unit :=
  { sampleLib with
    unmarshalAPIResponse := fun body =>
      if body = escapedBody then .ok { Success := false, Data := (), Message := "a\"b" }
      else .error "invalid character" }


/-! ## The JSON mapping of `encoding/json` for the record and the envelope

The text of a JSON document is not modelled, only its syntax tree: `json.Marshal`
is the tree it prints, `json.Unmarshal` is what it does with the tree it has
scanned.  The number literals of the tree are the ones that `encoding/json` writes
for integers and for integral `float64` values; literals with a fraction are
outside the tree type. -/

/-- A JSON document.  `int n` is the number literal made of the decimal digits of
`n`; `sci f` is the exponent-notation literal that `encoding/json` prints for the
integral `float64` value `f` when `|f| ≥ 10^21`. -/
inductive JSON where
  | null
  | bool (b : Bool)
  | int (n : Int)
  | sci (f : Int)
  | str (s : String)
  | arr (xs : List JSON)
  | obj (kvs : List (String × JSON))

/-- What `json.Unmarshal` stores in an `interface{}`: `nil`, `bool`, `float64`
(here always integral, held exactly), `string`, `[]interface{}`, and
`map[string]interface{}` as the list of its entries in increasing key order. -/
inductive Value where
  | nil
  | bool (b : Bool)
  | float64 (f : Int)
  | string (s : String)
  | slice (xs : List Value)
  | map (kvs : List (String × Value))

/-- The number of binary digits of `n`, computed with `fuel` halvings. -/
def bitLenAux : Nat → Nat → Nat
  | 0, _ => 0
  | fuel + 1, n => if n = 0 then 0 else bitLenAux fuel (n / 2) + 1

/-- The number of binary digits of `n`. -/
def bitLen (n : Nat) : Nat := bitLenAux n n

/-- The magnitude of the `float64` nearest to the natural number `a`
(`strconv.ParseFloat` on an integer literal): numbers below `2^53` are exact,
larger ones keep 53 significant bits, rounding to nearest and ties to even. -/
def float64OfNat (a : Nat) : Nat :=
  if a < 2 ^ 53 then a
  else
    let sh := bitLen a - 53
    let q := a / 2 ^ sh
    let r := a % 2 ^ sh
    let half := 2 ^ (sh - 1)
    let q1 := if r > half ∨ (r = half ∧ q % 2 = 1) then q + 1 else q
    q1 * 2 ^ sh

/-- The `float64` for an integer literal, or `none` when the literal is out of
the range of `float64` (the rounded magnitude reaches `2^1024`, that is, it needs
more than 1024 binary digits). -/
def float64OfInt (n : Int) : Option Int :=
  let f := float64OfNat n.natAbs
  if bitLen f ≤ 1024 then some (if n < 0 then -(f : Int) else (f : Int)) else none

/-- The search of `shortestDecimal`: the multiple of the largest power of ten
`10^p`, `p ≤ k`, that lies in the rounding interval of `f`; of two such multiples,
the one nearer to `f`. -/
def shortestSearch (f lo4 hi4 : Nat) (closed : Bool) : Nat → Nat
  | 0 => f
  | k + 1 =>
    let dn := f / 10 ^ (k + 1) * 10 ^ (k + 1)
    let up := dn + 10 ^ (k + 1)
    let inside := fun (c : Nat) =>
      if closed then decide (lo4 ≤ 4 * c ∧ 4 * c ≤ hi4) else decide (lo4 < 4 * c ∧ 4 * c < hi4)
    if inside dn ∧ inside up then (if f - dn ≤ up - f then dn else up)
    else if inside dn then dn
    else if inside up then up
    else shortestSearch f lo4 hi4 closed k

/-- The integer whose decimal digits `strconv.FormatFloat(f, 'f', -1, 64)` prints
for the integral `float64` magnitude `f < 10^21`: the decimal with the fewest
significant digits among those that round to `f`, and the nearest to `f` among
these.  Below `2^53` neighbouring values are at most 1 apart and the digits are
those of `f`; from `2^53` on, `f = m * 2^e` with `2^52 ≤ m < 2^53`, the interval
reaches half a step `2^e` up and down (a quarter down when `m = 2^52`), and its
end points count when `m` is even.  Bounds are kept multiplied by 4. -/
def shortestDecimal (f : Nat) : Nat :=
  if f < 2 ^ 53 then f
  else
    let e := bitLen f - 53
    let m := f / 2 ^ e
    let lo4 := 4 * f - (if m = 2 ^ 52 then 2 ^ e else 2 ^ (e + 1))
    let hi4 := 4 * f + 2 ^ (e + 1)
    shortestSearch f lo4 hi4 (m % 2 = 0) 20

/-- The number literal `json.Marshal` writes for an integral `float64`: format
`'f'` with the shortest digits below `10^21`, exponent notation from there on. -/
def marshalFloat64 (f : Int) : JSON :=
  if f.natAbs < 10 ^ 21 then
    .int (if f < 0 then -(shortestDecimal f.natAbs : Int) else (shortestDecimal f.natAbs : Int))
  else .sci f

/-- Go's order on strings (byte-wise, which for UTF-8 is the order on code points). -/
def keyLt (a b : String) : Bool := decide (a.toList < b.toList)

/-- Assignment `m[k] = v` on a map kept as a key-ordered list of entries. -/
def mapInsert (k : String) (v : Value) : List (String × Value) → List (String × Value)
  | [] => [(k, v)]
  | (k1, v1) :: rest =>
    if k = k1 then (k, v) :: rest
    else if keyLt k k1 then (k, v) :: (k1, v1) :: rest
    else (k1, v1) :: mapInsert k v rest

/-- The first error of two. -/
def firstError (a b : Option String) : Option String :=
  match a with
  | some e => some e
  | none => b

mutual
/-- Go `json.Unmarshal` into an `interface{}`: the value stored, and the error
saved on the way (a number literal out of the range of `float64`; decoding goes
on after it and the value stays `nil`). -/
def toValue : JSON → Value × Option String
  | .null => (.nil, none)
  | .bool b => (.bool b, none)
  | .int n =>
    match float64OfInt n with
    | some f => (.float64 f, none)
    | none => (.nil, some "json: cannot unmarshal number into Go value of type float64")
  | .sci f => (.float64 f, none)
  | .str s => (.string s, none)
  | .arr xs => (.slice (toValueList xs).1, (toValueList xs).2)
  | .obj kvs => (.map (toValueFields kvs [] none).1, (toValueFields kvs [] none).2)
/-- The elements of an array, in order. -/
def toValueList : List JSON → List Value × Option String
  | [] => ([], none)
  | x :: xs => ((toValue x).1 :: (toValueList xs).1, firstError (toValue x).2 (toValueList xs).2)
/-- The members of an object, assigned to the map in order: a repeated key
keeps its last value. -/
def toValueFields : List (String × JSON) → List (String × Value) → Option String →
    List (String × Value) × Option String
  | [], m, err => (m, err)
  | (k, x) :: rest, m, err =>
    toValueFields rest (mapInsert k (toValue x).1 m) (firstError err (toValue x).2)
end

mutual
/-- Go `json.Marshal` of a value held in an `interface{}`; the members of a map
are written in increasing key order. -/
def marshalValue : Value → JSON
  | .nil => .null
  | .bool b => .bool b
  | .float64 f => marshalFloat64 f
  | .string s => .str s
  | .slice xs => .arr (marshalValueList xs)
  | .map kvs => .obj (marshalValueFields kvs)
/-- The elements of a slice. -/
def marshalValueList : List Value → List JSON
  | [] => []
  | x :: xs => marshalValue x :: marshalValueList xs
/-- The entries of a map. -/
def marshalValueFields : List (String × Value) → List (String × JSON)
  | [] => []
  | (k, x) :: rest => (k, marshalValue x) :: marshalValueFields rest
end

/-- The folding of one character of an object key (`foldRune`): lower-case ASCII
letters become upper case, and the long s and the Kelvin sign, the only other
characters that fold to an ASCII letter, become `S` and `K`. -/
def foldChar (ch : Char) : Char :=
  if 'a' ≤ ch ∧ ch ≤ 'z' then Char.ofNat (ch.toNat - 32)
  else if ch = Char.ofNat 0x17F then 'S'
  else if ch = Char.ofNat 0x212A then 'K'
  else ch

/-- Go `foldName`: the key with every character folded. -/
def foldName (s : String) : String := String.mk (s.toList.map foldChar)

/-- The struct field a key is decoded into: the field with exactly that JSON
name, otherwise the first field whose name is the same up to case. -/
def fieldFor (names : List String) (key : String) : Option String :=
  match names.find? (fun n => n = key) with
  | some n => some n
  | none => names.find? (fun n => foldName n = foldName key)

/-- The word `encoding/json` uses for a JSON value in a type error. -/
def JSON.kind : JSON → String
  | .null => "null"
  | .bool _ => "bool"
  | .int _ => "number"
  | .sci _ => "number"
  | .str _ => "string"
  | .arr _ => "array"
  | .obj _ => "object"

/-- The text of an `UnmarshalTypeError`. -/
def typeError (j : JSON) (field goType : String) : String :=
  "json: cannot unmarshal " ++ j.kind ++ " into Go struct field " ++ field ++ " of type " ++ goType

/-- Decoding into an `int` field: `none` leaves the field as it is (`null`). -/
def decodeInt (field : String) (j : JSON) : Except String (Option Int) :=
  match j with
  | .null => .ok none
  | .int n =>
    if -(2 : Int) ^ 63 ≤ n ∧ n < 2 ^ 63 then .ok (some n) else .error (typeError j field "int")
  | _ => .error (typeError j field "int")

/-- Decoding into a `string` field: `none` leaves the field as it is (`null`). -/
def decodeString (field : String) (j : JSON) : Except String (Option String) :=
  match j with
  | .null => .ok none
  | .str s => .ok (some s)
  | _ => .error (typeError j field "string")

/-- Decoding into a `bool` field: `none` leaves the field as it is (`null`). -/
def decodeBool (field : String) (j : JSON) : Except String (Option Bool) :=
  match j with
  | .null => .ok none
  | .bool b => .ok (some b)
  | _ => .error (typeError j field "bool")

/-- Decoding into a `*string` field: the new value of the field (`null` sets nil). -/
def decodeStringPtr (field : String) (j : JSON) : Except String (Option String) :=
  match j with
  | .null => .ok none
  | .str s => .ok (some s)
  | _ => .error (typeError j field "string")

/-- Decoding into a `*int` field: the new value of the field (`null` sets nil). -/
def decodeIntPtr (field : String) (j : JSON) : Except String (Option Int) :=
  match j with
  | .null => .ok none
  | .int n =>
    if -(2 : Int) ^ 63 ≤ n ∧ n < 2 ^ 63 then .ok (some n) else .error (typeError j field "int")
  | _ => .error (typeError j field "int")

/-- The JSON names of the fields of `Student`, in declaration order. -/
def studentFieldNames : List String :=
  ["id", "name", "email", "systemAccess", "phone", "gender", "dob", "class", "section", "roll",
   "fatherName", "fatherPhone", "motherName", "motherPhone", "guardianName", "guardianPhone",
   "relationOfGuardian", "currentAddress", "permanentAddress", "admissionDate", "reporterName"]

/-- The new value of a non-pointer field: the decoded one, or the old one on `null`. -/
def keepOr {α : Type} (old : α) : Option α → α
  | some v => v
  | none => old

/-- Decoding one member of an object into the `Student` field with the given
JSON name. -/
def setStudentField (name : String) (j : JSON) (s : Student) : Except String Student :=
  if name = "id" then
    (decodeInt "Student.id" j).map (fun v => { s with ID := keepOr s.ID v })
  else if name = "name" then
    (decodeString "Student.name" j).map (fun v => { s with Name := keepOr s.Name v })
  else if name = "email" then
    (decodeString "Student.email" j).map (fun v => { s with Email := keepOr s.Email v })
  else if name = "systemAccess" then
    (decodeBool "Student.systemAccess" j).map
      (fun v => { s with SystemAccess := keepOr s.SystemAccess v })
  else if name = "phone" then
    (decodeStringPtr "Student.phone" j).map (fun v => { s with Phone := v })
  else if name = "gender" then
    (decodeStringPtr "Student.gender" j).map (fun v => { s with Gender := v })
  else if name = "dob" then
    (decodeStringPtr "Student.dob" j).map (fun v => { s with DOB := v })
  else if name = "class" then
    (decodeStringPtr "Student.class" j).map (fun v => { s with Class := v })
  else if name = "section" then
    (decodeStringPtr "Student.section" j).map (fun v => { s with Section := v })
  else if name = "roll" then
    (decodeIntPtr "Student.roll" j).map (fun v => { s with Roll := v })
  else if name = "fatherName" then
    (decodeStringPtr "Student.fatherName" j).map (fun v => { s with FatherName := v })
  else if name = "fatherPhone" then
    (decodeStringPtr "Student.fatherPhone" j).map (fun v => { s with FatherPhone := v })
  else if name = "motherName" then
    (decodeStringPtr "Student.motherName" j).map (fun v => { s with MotherName := v })
  else if name = "motherPhone" then
    (decodeStringPtr "Student.motherPhone" j).map (fun v => { s with MotherPhone := v })
  else if name = "guardianName" then
    (decodeStringPtr "Student.guardianName" j).map (fun v => { s with GuardianName := v })
  else if name = "guardianPhone" then
    (decodeStringPtr "Student.guardianPhone" j).map (fun v => { s with GuardianPhone := v })
  else if name = "relationOfGuardian" then
    (decodeStringPtr "Student.relationOfGuardian" j).map
      (fun v => { s with RelationOfGuardian := v })
  else if name = "currentAddress" then
    (decodeStringPtr "Student.currentAddress" j).map (fun v => { s with CurrentAddress := v })
  else if name = "permanentAddress" then
    (decodeStringPtr "Student.permanentAddress" j).map (fun v => { s with PermanentAddress := v })
  else if name = "admissionDate" then
    (decodeStringPtr "Student.admissionDate" j).map (fun v => { s with AdmissionDate := v })
  else if name = "reporterName" then
    (decodeStringPtr "Student.reporterName" j).map (fun v => { s with ReporterName := v })
  else .ok s

/-- The zero value of `Student`. -/
def zeroStudent : Student :=
  { ID := 0, Name := "", Email := "", SystemAccess := false, Phone := none, Gender := none,
    DOB := none, Class := none, Section := none, Roll := none, FatherName := none,
    FatherPhone := none, MotherName := none, MotherPhone := none, GuardianName := none,
    GuardianPhone := none, RelationOfGuardian := none, CurrentAddress := none,
    PermanentAddress := none, AdmissionDate := none, ReporterName := none }

/-- The members of an object decoded into a `Student` one after the other; a
member whose key names no field is skipped, the first type error ends the
decoding. -/
def decodeStudentFields : List (String × JSON) → Student → Except String Student
  | [], st => .ok st
  | (k, j) :: rest, st =>
    match fieldFor studentFieldNames k with
    | none => decodeStudentFields rest st
    | some n =>
      match setStudentField n j st with
      | .error e => .error e
      | .ok st1 => decodeStudentFields rest st1

/-- Go `json.Unmarshal(data, &student)` for a fresh `student`, on the tree of `data`. -/
def unmarshalStudentJSON : JSON → Except String Student
  | .null => .ok zeroStudent
  | .obj kvs => decodeStudentFields kvs zeroStudent
  | j => .error ("json: cannot unmarshal " ++ j.kind ++ " into Go value of type api.Student")

/-- The JSON names of the fields of `APIResponse`. -/
def apiResponseFieldNames : List String := ["success", "data", "message"]

/-- Decoding one member of an object into the `APIResponse` field with the given
JSON name; the payload goes into the `interface{}` untyped. -/
def setAPIResponseField (name : String) (j : JSON) (r : APIResponse Value) :
    Except String (APIResponse Value) :=
  if name = "success" then
    (decodeBool "APIResponse.success" j).map (fun v => { r with Success := keepOr r.Success v })
  else if name = "data" then
    match (toValue j).2 with
    | some e => .error e
    | none => .ok { r with Data := (toValue j).1 }
  else if name = "message" then
    (decodeString "APIResponse.message" j).map (fun v => { r with Message := keepOr r.Message v })
  else .ok r

/-- The members of an object decoded into an `APIResponse` one after the other. -/
def decodeAPIResponseFields : List (String × JSON) → APIResponse Value →
    Except String (APIResponse Value)
  | [], r => .ok r
  | (k, j) :: rest, r =>
    match fieldFor apiResponseFieldNames k with
    | none => decodeAPIResponseFields rest r
    | some n =>
      match setAPIResponseField n j r with
      | .error e => .error e
      | .ok r1 => decodeAPIResponseFields rest r1

/-- Go `json.Unmarshal(body, &apiResponse)` for a fresh `apiResponse`, on the tree
of `body`. -/
def unmarshalAPIResponseJSON : JSON → Except String (APIResponse Value)
  | .null => .ok { Success := false, Data := .nil, Message := "" }
  | .obj kvs => decodeAPIResponseFields kvs { Success := false, Data := .nil, Message := "" }
  | j => .error ("json: cannot unmarshal " ++ j.kind ++ " into Go value of type api.APIResponse")

/-- Go `json.Marshal` of a `*string`. -/
def marshalStringPtr : Option String → JSON
  | none => .null
  | some s => .str s

/-- Go `json.Marshal` of a `*int`. -/
def marshalIntPtr : Option Int → JSON
  | none => .null
  | some n => .int n

/-- Go `json.Marshal` of a `Student`: one member per field, in declaration order. -/
def marshalStudent (s : Student) : JSON :=
  .obj [("id", .int s.ID), ("name", .str s.Name), ("email", .str s.Email),
    ("systemAccess", .bool s.SystemAccess), ("phone", marshalStringPtr s.Phone),
    ("gender", marshalStringPtr s.Gender), ("dob", marshalStringPtr s.DOB),
    ("class", marshalStringPtr s.Class), ("section", marshalStringPtr s.Section),
    ("roll", marshalIntPtr s.Roll), ("fatherName", marshalStringPtr s.FatherName),
    ("fatherPhone", marshalStringPtr s.FatherPhone),
    ("motherName", marshalStringPtr s.MotherName),
    ("motherPhone", marshalStringPtr s.MotherPhone),
    ("guardianName", marshalStringPtr s.GuardianName),
    ("guardianPhone", marshalStringPtr s.GuardianPhone),
    ("relationOfGuardian", marshalStringPtr s.RelationOfGuardian),
    ("currentAddress", marshalStringPtr s.CurrentAddress),
    ("permanentAddress", marshalStringPtr s.PermanentAddress),
    ("admissionDate", marshalStringPtr s.AdmissionDate),
    ("reporterName", marshalStringPtr s.ReporterName)]

/-- The envelope `APIResponse` written as JSON, its payload already a tree. -/
def marshalEnvelope (success : Bool) (data : JSON) (message : String) : JSON :=
  .obj [("success", .bool success), ("data", data), ("message", .str message)]

/-- Lines 313-332 of `GetStudentByID` on the tree of the response body: decode
the envelope with the payload untyped, check `success`, marshal the payload again
and decode it into a `Student`. -/
def decodeEnvelope (doc : JSON) : Except String Student :=
  match unmarshalAPIResponseJSON doc with
  | .error e => .error ("failed to parse API response: " ++ e)
  | .ok apiResponse =>
    if !apiResponse.Success then .error ("API request failed: " ++ apiResponse.Message)
    else
      match unmarshalStudentJSON (marshalValue apiResponse.Data) with
      | .error e => .error ("failed to unmarshal student data: " ++ e)
      | .ok student => .ok student

/-- The record of `GetMockStudent` (`test_data.go`). -/
def GetMockStudent : Student :=
  { ID := 1, Name := "John Doe", Email := "john.doe@school.com", SystemAccess := true
    Phone := some "+1234567890", Gender := some "Male", DOB := some "1995-05-15"
    Class := some "Grade 10", Section := some "A", Roll := some 15
    FatherName := some "Robert Doe", FatherPhone := some "+1234567891"
    MotherName := some "Jane Doe", MotherPhone := some "+1234567892"
    GuardianName := some "Robert Doe", GuardianPhone := some "+1234567891"
    RelationOfGuardian := some "Father"
    CurrentAddress := some "123 Main St, City, State 12345"
    PermanentAddress := some "123 Main St, City, State 12345"
    AdmissionDate := some "2020-09-01", ReporterName := some "Ms. Sarah Johnson" }

/-- The tree `json.Marshal` writes for the untyped value that `json.Unmarshal`
stores for `j`: the effect of lines 313-322 of `GetStudentByID` on the payload. -/
def remarshal (j : JSON) : JSON := marshalValue (toValue j).1

/-- The mock record with an identifier one above `2^53`. -/
def bigIdStudent : Student := { GetMockStudent with ID := 9007199254740993 }

/-- The library in which the three JSON calls of `GetStudentByID` are the tree
functions above behind a scanner `scan` (text to tree, or a syntax error) and a
printer `render` (tree to text); the other functions are those of `lib0`. -/
def treeLib (lib0 : Lib Value) (scan : String → Except String JSON) (render : JSON → String) :
    Lib Value :=
  { lib0 with
    unmarshalAPIResponse := fun body =>
      match scan body with
      | .error e => .error e
      | .ok doc => unmarshalAPIResponseJSON doc
    marshalData := fun v => .ok (render (marshalValue v))
    unmarshalStudent := fun text =>
      match scan text with
      | .error e => .error e
      | .ok doc => unmarshalStudentJSON doc }


/-! ## The cookies of a record request (`api_client.go`, lines 235-262) -/

/-- The slice `cookieParts` of `createRequest` (lines 236-248): one `name=value`
text per non-empty session field, appended in the order of the three tests. -/
def cookieParts (c : APIClient) : List String :=
  let parts0 : List String := []
  let parts1 := if c.authToken ≠ "" then parts0 ++ ["accessToken=" ++ c.authToken] else parts0
  let parts2 := if c.refreshToken ≠ "" then parts1 ++ ["refreshToken=" ++ c.refreshToken]
    else parts1
  if c.csrfToken ≠ "" then parts2 ++ ["csrfToken=" ++ c.csrfToken] else parts2

/-- The name and value pairs a record request should carry as cookies, in the
words of the specification: the cached values that are not empty, in the order
`accessToken`, `refreshToken`, `csrfToken`. -/
def sessionCookiePairs (c : APIClient) : List (String × String) :=
  [("accessToken", c.authToken), ("refreshToken", c.refreshToken),
    ("csrfToken", c.csrfToken)].filter (fun p => p.2 ≠ "")

/-- The text of a cookie pair in a `Cookie` header. -/
def cookiePairText (p : String × String) : String := p.1 ++ "=" ++ p.2

/-! ## Formatting helpers of the record (`student.go`, lines 39-65) -/

/-- Whether a year is a leap year (`time.isLeap`). -/
def isLeap (year : Nat) : Bool :=
  year % 4 = 0 ∧ (year % 100 ≠ 0 ∨ year % 400 = 0)

/-- The number of days of a month (`time.daysIn`). -/
def daysIn (month year : Nat) : Nat :=
  if month = 2 then (if isLeap year then 29 else 28)
  else if month = 4 ∨ month = 6 ∨ month = 9 ∨ month = 11 then 30
  else 31

/-- Go `time.Parse("2006-01-02", s)`: four digits, `-`, two digits, `-`, two
digits and nothing else, with the month in `1..12` and the day within the month;
the result is the year, the month and the day, `none` stands for the error. -/
def parseDate (s : String) : Option (Nat × Nat × Nat) :=
  match s.toList with
  | [y1, y2, y3, y4, s1, m1, m2, s2, d1, d2] =>
    match digitVal y1, digitVal y2, digitVal y3, digitVal y4, digitVal m1, digitVal m2,
      digitVal d1, digitVal d2 with
    | some a, some b, some c, some d, some e, some f, some g, some h =>
      let year := a * 1000 + b * 100 + c * 10 + d
      let month := e * 10 + f
      let day := g * 10 + h
      if s1 = '-' ∧ s2 = '-' ∧ 1 ≤ month ∧ month ≤ 12 ∧ 1 ≤ day ∧ day ≤ daysIn month year then
        some (year, month, day)
      else none
    | _, _, _, _, _, _, _, _ => none
  | _ => none

/-- The English name of a month (`time.Month.String`), for `1..12`. -/
def monthName (month : Nat) : String :=
  match month with
  | 1 => "January"
  | 2 => "February"
  | 3 => "March"
  | 4 => "April"
  | 5 => "May"
  | 6 => "June"
  | 7 => "July"
  | 8 => "August"
  | 9 => "September"
  | 10 => "October"
  | 11 => "November"
  | _ => "December"

/-- A year written with at least four digits (the `2006` of a layout). -/
def fourDigits (year : Nat) : String :=
  (if year < 10 then "000" else if year < 100 then "00" else if year < 1000 then "0" else "") ++
    toString year

/-- Go `t.Format("January 2, 2006")` for a date. -/
def formatLongDate (year month day : Nat) : String :=
  monthName month ++ " " ++ toString day ++ ", " ++ fourDigits year

/-- Go `(*Student).FormatDate`; the receiver is not used. -/
def FormatDate (dateStr : Option String) : String :=
  match dateStr with
  | none => "N/A"
  | some s =>
    if s = "" then "N/A"
    else
      match parseDate s with
      | some (year, month, day) => formatLongDate year month day
      | none => s

/-- Go `GetValueOrNA`. -/
def GetValueOrNA (str : Option String) : String :=
  match str with
  | none => "N/A"
  | some s => if s = "" then "N/A" else s

/-- Go `GetIntValueOrNA`: `%d` is the decimal rendering of the integer. -/
def GetIntValueOrNA (num : Option Int) : String :=
  match num with
  | none => "N/A"
  | some n => toString n

/-! ## Sequences of session operations -/

/-- One operation on a client and its world: a login (`authenticate`, whatever
its outcome), the invalidation after a 401 (lines 283-285 of `GetStudentByID`), a
whole `GetStudentByID` call, or a call of `getCsrfToken`. -/
inductive SessionStep {V : Type} (lib : Lib V) : APIClient × World → APIClient × World → Prop
  | login (env : Env) (c : APIClient) (w : World) :
    SessionStep lib (c, w) ((authenticate lib env c w).2.1, (authenticate lib env c w).2.2)
  | invalidate (c : APIClient) (w : World) :
    SessionStep lib (c, w) ({ c with authenticated := false }, w)
  | fetch (env : Env) (id : String) (c : APIClient) (w : World) :
    SessionStep lib (c, w)
      ((GetStudentByID lib env c w id).2.1, (GetStudentByID lib env c w id).2.2)
  | csrfLookup (c : APIClient) (w : World) :
    SessionStep lib (c, w) ((getCsrfToken lib c w).2, w)

/-- Every token field that is not empty in `c` is not empty in `c2`. -/
def TokensKept (c c2 : APIClient) : Prop :=
  (c.authToken ≠ "" → c2.authToken ≠ "") ∧
  (c.refreshToken ≠ "" → c2.refreshToken ≠ "") ∧
  (c.csrfToken ≠ "" → c2.csrfToken ≠ "")

/-- A login response that is accepted and sets a new access token only. -/
def accessOnlyLogin : Response :=
  { StatusCode := 200, Cookies := [⟨"accessToken", "a2"⟩, ⟨"csrfToken", ""⟩]
    Body := .ok "\x7b\"id\":1\x7d" }

/-- The client after `okLogin` and then `accessOnlyLogin`: the refresh and
anti-forgery values are those of the first login. -/
def staleSession : APIClient :=
  { baseURL := "http://localhost:5007/api/v1", hasJar := true, authenticated := true
    authToken := "a2", refreshToken := "r1", csrfToken := "x1" }

/-- The record request for identifier `1` built from `staleSession`. -/
def staleRecordRequest : Request :=
  { Method := "GET"
    URL := "http://localhost:5007/api/v1/students/1"
    Header := [("Content-Type", "application/json"), ("Accept", "application/json"),
      ("Cookie", "accessToken=a2; refreshToken=r1; csrfToken=x1"), ("x-csrf-token", "x1")]
    Body := none }

/-- An upstream whose session expires once and whose second login re-issues the
access token only. -/
def partlyReissued : World :=
  scriptedWorld [okLogin, unauthorized, accessOnlyLogin, okRecord] []

/-! ### Requests and traces -/

theorem Request.Set_Method (r : Request) (k v : String) : (r.Set k v).Method = r.Method := rfl

theorem ite_Set_Method (p : Prop) [Decidable p] (r : Request) (k v : String) :
    (if p then r.Set k v else r).Method = r.Method := by
  split <;> rfl

theorem NewRequest_Method {V : Type} (lib : Lib V) (m u : String) (b : Option String)
    (r : Request) (h : NewRequest lib m u b = .ok r) : r.Method = m := by
  unfold NewRequest at h
  split at h
  · cases h
  · cases h; rfl

theorem loginRequest_Method {V : Type} (lib : Lib V) (env : Env) (c : APIClient) (r : Request)
    (h : loginRequest lib env c = .ok r) : r.Method = "POST" := by
  unfold loginRequest at h
  simp only at h
  split at h
  · cases h
  · split at h
    · cases h
    · split at h
      · cases h
      · rename_i req hreq
        cases h
        simp only [Request.Set_Method]
        exact NewRequest_Method lib _ _ _ _ hreq

theorem createRequest_Method {V : Type} (lib : Lib V) (c : APIClient) (id : String) (r : Request)
    (h : createRequest lib c id = .ok r) : r.Method = "GET" := by
  unfold createRequest at h
  split at h
  · cases h
  · rename_i req hreq
    have hm := NewRequest_Method lib _ _ _ _ hreq
    simp only at h
    cases h
    rw [ite_Set_Method, ite_Set_Method]
    simp only [Request.Set_Method, hm]

/-- Whether `createRequest` succeeds depends on the base URL and the identifier only. -/
theorem createRequest_ok_of_baseURL {V : Type} (lib : Lib V) (c c2 : APIClient) (id : String)
    (r : Request) (h : createRequest lib c id = .ok r) (hb : c2.baseURL = c.baseURL) :
    ∃ r2, createRequest lib c2 id = .ok r2 := by
  unfold createRequest at h ⊢
  rw [hb]
  split at h
  · cases h
  · exact ⟨_, rfl⟩

theorem storeCookie_baseURL (c : APIClient) (k : Cookie) : (storeCookie c k).baseURL = c.baseURL := by
  unfold storeCookie
  simp only
  split <;> split <;> split <;> rfl

theorem storeSession_baseURL (c : APIClient) (ks : List Cookie) :
    (storeSession c ks).baseURL = c.baseURL := by
  unfold storeSession
  have : ∀ (ks : List Cookie) (d : APIClient), (ks.foldl storeCookie d).baseURL = d.baseURL := by
    intro ks
    induction ks with
    | nil => intro d; rfl
    | cons k ks ih => intro d; rw [List.foldl_cons, ih, storeCookie_baseURL]
  rw [this]

theorem loginOutcome_baseURL {V : Type} (lib : Lib V) (c : APIClient) (resp : Response) :
    (loginOutcome lib c resp).2.baseURL = c.baseURL := by
  unfold loginOutcome
  simp only
  split
  · rfl
  · split
    · rfl
    · split
      · rfl
      · split
        · rfl
        · exact storeSession_baseURL c _

theorem authenticate_baseURL {V : Type} (lib : Lib V) (env : Env) (c : APIClient) (w : World) :
    (authenticate lib env c w).2.1.baseURL = c.baseURL := by
  unfold authenticate
  split
  · rfl
  · split
    · rfl
    · exact loginOutcome_baseURL lib c _

/-- The requests `authenticate` issues: none, or the one login request. -/
theorem authenticate_sent {V : Type} (lib : Lib V) (env : Env) (c : APIClient) (w : World) :
    ((authenticate lib env c w).2.2 = w ∧ ∃ e, (authenticate lib env c w).1 = .error e) ∨
    ∃ l, loginRequest lib env c = .ok l ∧
      (authenticate lib env c w).2.2 = { w with sent := w.sent ++ [l] } := by
  unfold authenticate
  split
  · exact Or.inl ⟨rfl, _, rfl⟩
  · rename_i req hreq
    right
    refine ⟨req, hreq, ?_⟩
    split
    · rename_i e w1 hdo
      have : w1 = (w.Do req).2 := by rw [hdo]
      rw [this]; rfl
    · rename_i resp w1 hdo
      have : w1 = (w.Do req).2 := by rw [hdo]
      rw [this]; rfl

/-! ### The exchange after a 401 -/

/-- What `GetStudentByID.exchange` does once the first record request has been
answered with status 401. -/
theorem exchange_after_401 {V : Type} (lib : Lib V) (env : Env) (c c1 c2 : APIClient)
    (w w1 w2 : World) (id : String) (req : Request) (resp : Response)
    (rb : Except String Unit)
    (hens : ensureAuthenticated lib env c w = (.ok (), c1, w1))
    (hreq : createRequest lib c1 id = .ok req)
    (hresp : w1.upstream (w1.sent ++ [req]) = .ok resp)
    (h401 : resp.StatusCode = 401)
    (hb : authenticate lib env { c1 with authenticated := false }
      { w1 with sent := w1.sent ++ [req] } = (rb, c2, w2)) :
    GetStudentByID.exchange lib env c w id =
      match rb with
      | .error e => (.error ("failed to re-authenticate after 401: " ++ e), c2, w2)
      | .ok _ =>
        match createRequest lib c2 id with
        | .error e => (.error e, c2, w2)
        | .ok retryReq =>
          match w2.upstream (w2.sent ++ [retryReq]) with
          | .error e => (.error ("failed to retry request after re-authentication: " ++ e), c2,
              { w2 with sent := w2.sent ++ [retryReq] })
          | .ok resp2 => (.ok resp2, c2, { w2 with sent := w2.sent ++ [retryReq] }) := by
  unfold GetStudentByID.exchange
  simp only [hens, hreq, World.Do, hresp, h401, if_true, hb]
  cases rb with
  | error e => rfl
  | ok u => rfl

theorem isLogin_of_POST (r : Request) (h : r.Method = "POST") :
    isLoginRequest r = true ∧ isRecordRequest r = false := by
  unfold isLoginRequest isRecordRequest
  rw [h]
  exact ⟨by decide, by decide⟩

theorem isRecord_of_GET (r : Request) (h : r.Method = "GET") :
    isRecordRequest r = true ∧ isLoginRequest r = false := by
  unfold isLoginRequest isRecordRequest
  rw [h]
  exact ⟨by decide, by decide⟩

/-- The requests `authenticate` adds to the log: at most one, and it is a login. -/
theorem authenticate_trace {V : Type} (lib : Lib V) (env : Env) (c : APIClient) (w : World) :
    ∃ ls : List Request, (authenticate lib env c w).2.2 = { w with sent := w.sent ++ ls } ∧
      ls.countP isLoginRequest ≤ 1 ∧ ls.countP isRecordRequest = 0 ∧ ls.length ≤ 1 ∧
      (ls = [] ∨ ∃ l, loginRequest lib env c = .ok l ∧ ls = [l]) := by
  rcases authenticate_sent lib env c w with ⟨h, _⟩ | ⟨l, hl, h⟩
  · exact ⟨[], by rw [h, List.append_nil], by simp, by simp, by simp, Or.inl rfl⟩
  · have hm := isLogin_of_POST l (loginRequest_Method lib env c l hl)
    exact ⟨[l], h, by simp [hm.1], by simp [hm.2], by simp, Or.inr ⟨l, hl, rfl⟩⟩

/-- The requests `ensureAuthenticated` adds to the log. -/
theorem ensureAuthenticated_trace {V : Type} (lib : Lib V) (env : Env) (c : APIClient)
    (w : World) :
    ∃ ls : List Request, (ensureAuthenticated lib env c w).2.2 = { w with sent := w.sent ++ ls } ∧
      ls.countP isLoginRequest ≤ 1 ∧ ls.countP isRecordRequest = 0 ∧ ls.length ≤ 1 := by
  unfold ensureAuthenticated
  split
  · obtain ⟨ls, h1, h2, h3, h4, _⟩ := authenticate_trace lib env c w
    exact ⟨ls, h1, h2, h3, h4⟩
  · exact ⟨[], by simp, by simp, by simp, by simp⟩

/-! ### What a login stores -/

theorem storeCookie_authenticated (c : APIClient) (k : Cookie) :
    (storeCookie c k).authenticated = c.authenticated := by
  unfold storeCookie
  simp only
  split <;> split <;> split <;> rfl

theorem storeCookie_hasJar (c : APIClient) (k : Cookie) :
    (storeCookie c k).hasJar = c.hasJar := by
  unfold storeCookie
  simp only
  split <;> split <;> split <;> rfl

theorem storeCookie_authToken (c : APIClient) (k : Cookie) :
    (storeCookie c k).authToken =
      if k.Name = "accessToken" ∧ k.Value ≠ "" then k.Value else c.authToken := by
  unfold storeCookie
  simp only
  split <;> split <;> split <;> rfl

theorem storeCookie_refreshToken (c : APIClient) (k : Cookie) :
    (storeCookie c k).refreshToken =
      if k.Name = "refreshToken" ∧ k.Value ≠ "" then k.Value else c.refreshToken := by
  unfold storeCookie
  simp only
  split <;> split <;> split <;> rfl

theorem storeCookie_csrfToken (c : APIClient) (k : Cookie) :
    (storeCookie c k).csrfToken =
      if k.Name = "csrfToken" ∧ k.Value ≠ "" then k.Value else c.csrfToken := by
  unfold storeCookie
  simp only
  split <;> split <;> split <;> rfl

theorem lastCookieValue_cons (name : String) (k : Cookie) (ks : List Cookie) :
    lastCookieValue name (k :: ks) =
      match lastCookieValue name ks with
      | some v => some v
      | none => if k.Name = name ∧ k.Value ≠ "" then some k.Value else none := rfl

theorem foldl_storeCookie_authenticated (ks : List Cookie) (d : APIClient) :
    (ks.foldl storeCookie d).authenticated = d.authenticated := by
  induction ks generalizing d with
  | nil => rfl
  | cons k ks ih => rw [List.foldl_cons, ih, storeCookie_authenticated]

theorem foldl_storeCookie_authToken (ks : List Cookie) (d : APIClient) :
    (ks.foldl storeCookie d).authToken = (lastCookieValue "accessToken" ks).getD d.authToken := by
  induction ks generalizing d with
  | nil => rfl
  | cons k ks ih =>
    rw [List.foldl_cons, ih, storeCookie_authToken]
    rw [lastCookieValue_cons]
    cases lastCookieValue "accessToken" ks with
    | some v => rfl
    | none => simp only [Option.getD_none]; split <;> rfl

theorem foldl_storeCookie_refreshToken (ks : List Cookie) (d : APIClient) :
    (ks.foldl storeCookie d).refreshToken =
      (lastCookieValue "refreshToken" ks).getD d.refreshToken := by
  induction ks generalizing d with
  | nil => rfl
  | cons k ks ih =>
    rw [List.foldl_cons, ih, storeCookie_refreshToken]
    rw [lastCookieValue_cons]
    cases lastCookieValue "refreshToken" ks with
    | some v => rfl
    | none => simp only [Option.getD_none]; split <;> rfl

theorem foldl_storeCookie_csrfToken (ks : List Cookie) (d : APIClient) :
    (ks.foldl storeCookie d).csrfToken = (lastCookieValue "csrfToken" ks).getD d.csrfToken := by
  induction ks generalizing d with
  | nil => rfl
  | cons k ks ih =>
    rw [List.foldl_cons, ih, storeCookie_csrfToken]
    rw [lastCookieValue_cons]
    cases lastCookieValue "csrfToken" ks with
    | some v => rfl
    | none => simp only [Option.getD_none]; split <;> rfl

/-- The session after an accepted login: the flag is set and each token is the
last non-empty cookie of its name, or what it was. -/
theorem storeSession_fields (c : APIClient) (ks : List Cookie) :
    (storeSession c ks).authenticated = true ∧
    (storeSession c ks).authToken = (lastCookieValue "accessToken" ks).getD c.authToken ∧
    (storeSession c ks).refreshToken = (lastCookieValue "refreshToken" ks).getD c.refreshToken ∧
    (storeSession c ks).csrfToken = (lastCookieValue "csrfToken" ks).getD c.csrfToken := by
  unfold storeSession
  exact ⟨by rw [foldl_storeCookie_authenticated], by rw [foldl_storeCookie_authToken],
    by rw [foldl_storeCookie_refreshToken], by rw [foldl_storeCookie_csrfToken]⟩

/-- The result of `authenticate` once the login request has been built and answered. -/
theorem authenticate_of_response {V : Type} (lib : Lib V) (env : Env) (c : APIClient) (w : World)
    (req : Request) (resp : Response)
    (hreq : loginRequest lib env c = .ok req)
    (hresp : w.upstream (w.sent ++ [req]) = .ok resp) :
    authenticate lib env c w =
      ((loginOutcome lib c resp).1, (loginOutcome lib c resp).2,
        { w with sent := w.sent ++ [req] }) := by
  unfold authenticate
  simp only [hreq, World.Do, hresp]

/-- A failed `authenticate` leaves the client as it was. -/
theorem loginOutcome_error_client {V : Type} (lib : Lib V) (c : APIClient) (resp : Response)
    (e : String) (h : (loginOutcome lib c resp).1 = .error e) : (loginOutcome lib c resp).2 = c := by
  unfold loginOutcome at h ⊢
  cases hB : resp.Body with
  | error e1 => simp only [hB]
  | ok body =>
    simp only [hB] at h ⊢
    by_cases hs : resp.StatusCode ≠ 200
    · rw [if_pos hs]
    · rw [if_neg hs] at h ⊢
      cases hD : lib.unmarshalLoginResponse body with
      | error e2 => simp only [hD]
      | ok lr =>
        simp only [hD] at h ⊢
        by_cases hi : lr.ID = 0
        · rw [if_pos hi]
        · rw [if_neg hi] at h
          cases h

theorem authenticate_error_client {V : Type} (lib : Lib V) (env : Env) (c : APIClient)
    (w : World) (e : String) (h : (authenticate lib env c w).1 = .error e) :
    (authenticate lib env c w).2.1 = c := by
  unfold authenticate at h ⊢
  cases hreq : loginRequest lib env c with
  | error e1 => simp only [hreq]
  | ok req =>
    simp only [hreq, World.Do] at h ⊢
    cases hu : w.upstream (w.sent ++ [req]) with
    | error e2 => simp only [hu]
    | ok resp =>
      simp only [hu] at h ⊢
      exact loginOutcome_error_client lib c resp e h

/-! ### The two-stage decoding of a record -/

theorem bitLenAux_le (fuel n k : Nat) (h : n < 2 ^ k) : bitLenAux fuel n ≤ k := by
  induction fuel generalizing n k with
  | zero => exact Nat.zero_le _
  | succ fuel ih =>
    unfold bitLenAux
    split
    · exact Nat.zero_le _
    · rename_i hn
      cases k with
      | zero => simp at h; exact absurd h hn
      | succ k =>
        have : n / 2 < 2 ^ k := by
          rw [Nat.div_lt_iff_lt_mul (by decide)]
          rw [Nat.pow_succ] at h
          exact h
        exact Nat.succ_le_succ (ih _ _ this)

/-- Integers of magnitude at most `2^53` are `float64` values. -/
theorem float64OfNat_small (a : Nat) (h : a ≤ 2 ^ 53) : float64OfNat a = a := by
  rcases Nat.lt_or_eq_of_le h with h1 | h1
  · unfold float64OfNat
    rw [if_pos h1]
  · subst h1
    decide

theorem float64OfInt_small (n : Int) (h : n.natAbs ≤ 2 ^ 53) : float64OfInt n = some n := by
  unfold float64OfInt
  simp only [float64OfNat_small _ h]
  have hb : bitLen n.natAbs ≤ 1024 := by
    have : n.natAbs < 2 ^ 54 := by
      have : (2 : Nat) ^ 53 < 2 ^ 54 := by decide
      omega
    exact Nat.le_trans (bitLenAux_le _ _ 54 this) (by decide)
  rw [if_pos hb]
  congr 1
  split <;> omega

/-- The digits printed for a `float64` of magnitude at most `2^53` are its own. -/
theorem shortestDecimal_small (a : Nat) (h : a ≤ 2 ^ 53) : shortestDecimal a = a := by
  rcases Nat.lt_or_eq_of_le h with h1 | h1
  · unfold shortestDecimal
    rw [if_pos h1]
  · subst h1
    decide

theorem marshalFloat64_small (n : Int) (h : n.natAbs ≤ 2 ^ 53) : marshalFloat64 n = .int n := by
  unfold marshalFloat64
  have h21 : n.natAbs < 10 ^ 21 := by
    have : (2 : Nat) ^ 53 < 10 ^ 21 := by decide
    omega
  rw [if_pos h21, shortestDecimal_small _ h]
  congr 1
  split <;> omega

theorem toValue_int_small (n : Int) (h : n.natAbs ≤ 2 ^ 53) :
    toValue (.int n) = (.float64 n, none) := by
  unfold toValue
  rw [float64OfInt_small n h]

theorem remarshal_int (n : Int) (h : n.natAbs ≤ 2 ^ 53) : remarshal (.int n) = .int n := by
  unfold remarshal
  rw [toValue_int_small n h]
  show marshalFloat64 n = .int n
  exact marshalFloat64_small n h

theorem remarshal_str (s : String) : remarshal (.str s) = .str s := rfl

theorem remarshal_bool (b : Bool) : remarshal (.bool b) = .bool b := rfl

theorem remarshal_stringPtr (o : Option String) :
    remarshal (marshalStringPtr o) = marshalStringPtr o := by
  cases o <;> rfl

theorem remarshal_intPtr (o : Option Int) (h : ∀ r, o = some r → r.natAbs ≤ 2 ^ 53) :
    remarshal (marshalIntPtr o) = marshalIntPtr o := by
  cases o with
  | none => rfl
  | some r => exact remarshal_int r (h r rfl)

theorem toValueFields_error (kvs : List (String × JSON)) (m : List (String × Value))
    (err : Option String) (h : ∀ p ∈ kvs, (toValue p.2).2 = none) :
    (toValueFields kvs m err).2 = err := by
  induction kvs generalizing m err with
  | nil => rfl
  | cons p rest ih =>
    obtain ⟨k, x⟩ := p
    unfold toValueFields
    rw [ih _ _ (fun q hq => h q (List.mem_cons_of_mem _ hq))]
    have hx : (toValue x).2 = none := h (k, x) (List.mem_cons_self _ _)
    rw [hx]
    cases err <;> rfl

theorem toValue_stringPtr_error (o : Option String) : (toValue (marshalStringPtr o)).2 = none := by
  cases o <;> rfl

theorem toValue_intPtr_error (o : Option Int) (h : ∀ r, o = some r → r.natAbs ≤ 2 ^ 53) :
    (toValue (marshalIntPtr o)).2 = none := by
  cases o with
  | none => rfl
  | some r =>
    show (toValue (.int r)).2 = none
    rw [toValue_int_small r (h r rfl)]

/-- Decoding the encoding of a record into an `interface{}` saves no error. -/
theorem toValue_student_error (s : Student) (hID : s.ID.natAbs ≤ 2 ^ 53)
    (hRoll : ∀ r, s.Roll = some r → r.natAbs ≤ 2 ^ 53) :
    (toValue (marshalStudent s)).2 = none := by
  unfold marshalStudent toValue
  apply toValueFields_error
  intro p hp
  simp only [List.mem_cons, List.mem_singleton, List.not_mem_nil, or_false] at hp
  rcases hp with h | h | h | h | h | h | h | h | h | h | h | h | h | h | h | h | h | h | h | h | h
  all_goals subst h
  all_goals first
    | exact toValue_stringPtr_error _
    | exact toValue_intPtr_error _ hRoll
    | (show (toValue (.int s.ID)).2 = none; rw [toValue_int_small _ hID])
    | rfl


theorem toValue_obj (kvs : List (String × JSON)) :
    toValue (.obj kvs) = (.map (toValueFields kvs [] none).1, (toValueFields kvs [] none).2) := by
  unfold toValue; rfl

theorem marshalValue_map (kvs : List (String × Value)) :
    marshalValue (.map kvs) = .obj (marshalValueFields kvs) := by
  unfold marshalValue; rfl

theorem toValueFields_nil (m : List (String × Value)) (err : Option String) :
    toValueFields [] m err = (m, err) := by
  unfold toValueFields; rfl

theorem toValueFields_cons (k : String) (x : JSON) (rest : List (String × JSON))
    (m : List (String × Value)) (err : Option String) :
    toValueFields ((k, x) :: rest) m err =
      toValueFields rest (mapInsert k (toValue x).1 m) (firstError err (toValue x).2) := by
  rw [toValueFields]

theorem marshalValueFields_nil : marshalValueFields [] = [] := by
  unfold marshalValueFields; rfl

theorem marshalValueFields_cons (k : String) (x : Value) (rest : List (String × Value)) :
    marshalValueFields ((k, x) :: rest) = (k, marshalValue x) :: marshalValueFields rest := by
  rw [marshalValueFields]

set_option maxRecDepth 100000 in
/-- The payload of a record after the untyped stage: the members in key order,
each remarshalled. -/
theorem remarshal_student (s : Student) :
    remarshal (marshalStudent s) =
      .obj [("admissionDate", remarshal (marshalStringPtr s.AdmissionDate)),
        ("class", remarshal (marshalStringPtr s.Class)),
        ("currentAddress", remarshal (marshalStringPtr s.CurrentAddress)),
        ("dob", remarshal (marshalStringPtr s.DOB)),
        ("email", remarshal (.str s.Email)),
        ("fatherName", remarshal (marshalStringPtr s.FatherName)),
        ("fatherPhone", remarshal (marshalStringPtr s.FatherPhone)),
        ("gender", remarshal (marshalStringPtr s.Gender)),
        ("guardianName", remarshal (marshalStringPtr s.GuardianName)),
        ("guardianPhone", remarshal (marshalStringPtr s.GuardianPhone)),
        ("id", remarshal (.int s.ID)),
        ("motherName", remarshal (marshalStringPtr s.MotherName)),
        ("motherPhone", remarshal (marshalStringPtr s.MotherPhone)),
        ("name", remarshal (.str s.Name)),
        ("permanentAddress", remarshal (marshalStringPtr s.PermanentAddress)),
        ("phone", remarshal (marshalStringPtr s.Phone)),
        ("relationOfGuardian", remarshal (marshalStringPtr s.RelationOfGuardian)),
        ("reporterName", remarshal (marshalStringPtr s.ReporterName)),
        ("roll", remarshal (marshalIntPtr s.Roll)),
        ("section", remarshal (marshalStringPtr s.Section)),
        ("systemAccess", remarshal (.bool s.SystemAccess))] := by
  rw [show remarshal (marshalStudent s) = marshalValue (toValue (marshalStudent s)).1 from rfl,
    marshalStudent]
  simp +decide only [toValue_obj, toValueFields_cons, toValueFields_nil, mapInsert,
    marshalValue_map, marshalValueFields_cons, marshalValueFields_nil, if_true, if_false]
  rfl

theorem int64_of_small (n : Int) (h : n.natAbs ≤ 2 ^ 53) : -(2 : Int) ^ 63 ≤ n ∧ n < 2 ^ 63 := by
  have h1 : (2 : Nat) ^ 53 < 2 ^ 63 := by decide
  have h2 : ((2 : Int) ^ 63) = ((2 ^ 63 : Nat) : Int) := by norm_num
  rw [h2]
  omega

theorem decodeInt_small (field : String) (n : Int) (h : n.natAbs ≤ 2 ^ 53) :
    decodeInt field (.int n) = .ok (some n) := by
  unfold decodeInt
  simp only
  rw [if_pos (int64_of_small n h)]

theorem decodeIntPtr_marshal (field : String) (o : Option Int)
    (h : ∀ r, o = some r → r.natAbs ≤ 2 ^ 53) :
    decodeIntPtr field (marshalIntPtr o) = .ok o := by
  cases o with
  | none => rfl
  | some r =>
    unfold decodeIntPtr marshalIntPtr
    simp only
    rw [if_pos (int64_of_small r (h r rfl))]

theorem decodeStringPtr_marshal (field : String) (o : Option String) :
    decodeStringPtr field (marshalStringPtr o) = .ok o := by
  cases o <;> rfl

theorem decodeString_str (field s : String) : decodeString field (.str s) = .ok (some s) := rfl

theorem decodeBool_bool (field : String) (b : Bool) :
    decodeBool field (.bool b) = .ok (some b) := rfl

theorem Except_map_ok {ε α β : Type} (f : α → β) (a : α) :
    Except.map f (.ok a : Except ε α) = .ok (f a) := rfl

theorem keepOr_some {α : Type} (old v : α) : keepOr old (some v) = v := rfl

theorem fieldFor_student : ∀ k ∈ studentFieldNames, fieldFor studentFieldNames k = some k := by
  decide

theorem decodeStudentFields_nil (st : Student) : decodeStudentFields [] st = .ok st := rfl

theorem decodeStudentFields_cons (k : String) (j : JSON) (rest : List (String × JSON))
    (st : Student) (hk : fieldFor studentFieldNames k = some k) :
    decodeStudentFields ((k, j) :: rest) st =
      match setStudentField k j st with
      | .error e => .error e
      | .ok st1 => decodeStudentFields rest st1 := by
  rw [decodeStudentFields]
  simp only [hk]

set_option maxRecDepth 100000 in
/-- The typed stage gives the record back from its members in key order. -/
theorem unmarshalStudentJSON_sorted (s : Student) (hID : s.ID.natAbs ≤ 2 ^ 53)
    (hRoll : ∀ r, s.Roll = some r → r.natAbs ≤ 2 ^ 53) :
    unmarshalStudentJSON
      (.obj [("admissionDate", marshalStringPtr s.AdmissionDate),
        ("class", marshalStringPtr s.Class),
        ("currentAddress", marshalStringPtr s.CurrentAddress),
        ("dob", marshalStringPtr s.DOB),
        ("email", .str s.Email),
        ("fatherName", marshalStringPtr s.FatherName),
        ("fatherPhone", marshalStringPtr s.FatherPhone),
        ("gender", marshalStringPtr s.Gender),
        ("guardianName", marshalStringPtr s.GuardianName),
        ("guardianPhone", marshalStringPtr s.GuardianPhone),
        ("id", .int s.ID),
        ("motherName", marshalStringPtr s.MotherName),
        ("motherPhone", marshalStringPtr s.MotherPhone),
        ("name", .str s.Name),
        ("permanentAddress", marshalStringPtr s.PermanentAddress),
        ("phone", marshalStringPtr s.Phone),
        ("relationOfGuardian", marshalStringPtr s.RelationOfGuardian),
        ("reporterName", marshalStringPtr s.ReporterName),
        ("roll", marshalIntPtr s.Roll),
        ("section", marshalStringPtr s.Section),
        ("systemAccess", .bool s.SystemAccess)]) = .ok s := by
  unfold unmarshalStudentJSON
  simp (disch := decide) only [decodeStudentFields_cons, decodeStudentFields_nil,
    fieldFor_student, setStudentField, String.reduceEq, if_true, if_false,
    decodeStringPtr_marshal, decodeString_str, decodeBool_bool, decodeInt_small _ _ hID,
    decodeIntPtr_marshal _ _ hRoll, Except_map_ok, keepOr_some]

theorem fieldFor_apiResponse :
    ∀ k ∈ apiResponseFieldNames, fieldFor apiResponseFieldNames k = some k := by
  decide

/-- The envelope stage: with `success = true` and a payload that decodes into an
`interface{}` without error, the envelope decodes to that value. -/
theorem unmarshalAPIResponseJSON_envelope (data : JSON) (m : String)
    (herr : (toValue data).2 = none) :
    unmarshalAPIResponseJSON (marshalEnvelope true data m) =
      .ok { Success := true, Data := (toValue data).1, Message := m } := by
  unfold unmarshalAPIResponseJSON marshalEnvelope
  simp only
  rw [decodeAPIResponseFields, fieldFor_apiResponse "success" (by decide)]
  simp only [setAPIResponseField, if_true, decodeBool_bool, Except_map_ok, keepOr_some]
  rw [decodeAPIResponseFields, fieldFor_apiResponse "data" (by decide)]
  simp only [setAPIResponseField, String.reduceEq, if_true, if_false, herr]
  rw [decodeAPIResponseFields, fieldFor_apiResponse "message" (by decide)]
  simp only [setAPIResponseField, String.reduceEq, if_true, if_false, decodeString_str,
    Except_map_ok, keepOr_some]
  rfl

/-- The last two steps of `decodeEnvelope` once the envelope has been decoded
with `success = true`. -/
theorem decodeEnvelope_of_success (doc : JSON) (r : APIResponse Value)
    (h : unmarshalAPIResponseJSON doc = .ok r) (hs : r.Success = true) :
    decodeEnvelope doc =
      match unmarshalStudentJSON (marshalValue r.Data) with
      | .error e => .error ("failed to unmarshal student data: " ++ e)
      | .ok student => .ok student := by
  unfold decodeEnvelope
  rw [h]
  simp only [hs, Bool.not_true, Bool.false_eq_true, if_false]

/-- The decoding of an envelope with `success = true`: the typed stage applied to
the remarshalled payload. -/
theorem decodeEnvelope_envelope (data : JSON) (m : String) (herr : (toValue data).2 = none) :
    decodeEnvelope (marshalEnvelope true data m) =
      match unmarshalStudentJSON (remarshal data) with
      | .error e => .error ("failed to unmarshal student data: " ++ e)
      | .ok student => .ok student := by
  rw [decodeEnvelope_of_success _ _ (unmarshalAPIResponseJSON_envelope data m herr) rfl]
  rfl

/-- With a scanner that reads back what the printer writes, the last part of
`GetStudentByID` on a response with status 200 is `decodeEnvelope` on the tree of
its body. -/
theorem decode_treeLib (lib0 : Lib Value) (scan : String → Except String JSON)
    (render : JSON → String) (resp : Response) (doc : JSON)
    (hscan : ∀ j, scan (render j) = .ok j)
    (hstatus : resp.StatusCode = 200)
    (hbody : resp.Body = .ok (render doc)) :
    GetStudentByID.decode (treeLib lib0 scan render) resp = decodeEnvelope doc := by
  unfold GetStudentByID.decode decodeEnvelope treeLib
  simp only [hbody, hscan]
  rw [if_neg (by simp [hstatus])]
  cases unmarshalAPIResponseJSON doc with
  | error e => rfl
  | ok r => rfl

/-- The round trip through `GetStudentByID.decode` itself, for any scanner that
reads back what the printer writes. -/
theorem decode_treeLib_roundtrip (lib0 : Lib Value) (scan : String → Except String JSON)
    (render : JSON → String) (resp : Response) (s : Student) (m : String)
    (hscan : ∀ j, scan (render j) = .ok j)
    (hstatus : resp.StatusCode = 200)
    (hbody : resp.Body = .ok (render (marshalEnvelope true (marshalStudent s) m)))
    (hID : s.ID.natAbs ≤ 2 ^ 53)
    (hRoll : ∀ r, s.Roll = some r → r.natAbs ≤ 2 ^ 53) :
    GetStudentByID.decode (treeLib lib0 scan render) resp = .ok s := by
  rw [decode_treeLib lib0 scan render resp _ hscan hstatus hbody,
    decodeEnvelope_envelope _ m (toValue_student_error s hID hRoll), remarshal_student,
    remarshal_int _ hID, remarshal_intPtr _ hRoll, remarshal_str, remarshal_str, remarshal_bool]
  simp only [remarshal_stringPtr]
  rw [unmarshalStudentJSON_sorted s hID hRoll]

/-! ### The session invariant -/

theorem AnsweredLogin_mono (w w2 : World) (resp : Response) (more : List Request)
    (hu : w2.upstream = w.upstream) (hs : w2.sent = w.sent ++ more)
    (h : AnsweredLogin w resp) : AnsweredLogin w2 resp := by
  obtain ⟨pre, req, post, h1, h2, h3⟩ := h
  refine ⟨pre, req, post ++ more, ?_, h2, ?_⟩
  · rw [hs, h1]; simp
  · rw [hu]; exact h3

theorem SessionInv_extend {V : Type} (lib : Lib V) (c : APIClient) (w w2 : World)
    (more : List Request) (hu : w2.upstream = w.upstream) (hs : w2.sent = w.sent ++ more)
    (h : SessionInv lib c w) : SessionInv lib c w2 := by
  refine ⟨?_, ?_⟩
  · intro ha
    obtain ⟨resp, h1, h2⟩ := h.1 ha
    exact ⟨resp, AnsweredLogin_mono w w2 resp more hu hs h1, h2⟩
  · intro ht
    obtain ⟨resp, h1, h2, h3⟩ := h.2 ht
    exact ⟨resp, AnsweredLogin_mono w w2 resp more hu hs h1, h2, h3⟩

theorem SessionInv_Do {V : Type} (lib : Lib V) (c : APIClient) (w : World) (req : Request)
    (h : SessionInv lib c w) : SessionInv lib c (w.Do req).2 :=
  SessionInv_extend lib c w _ [req] rfl rfl h

theorem SessionInv_invalidate {V : Type} (lib : Lib V) (c : APIClient) (w : World)
    (h : SessionInv lib c w) : SessionInv lib { c with authenticated := false } w := by
  refine ⟨?_, h.2⟩
  intro ha
  cases ha

/-- An accepted login: `loginOutcome` succeeds only on an accepted response, and
then stores the session. -/
theorem loginOutcome_ok {V : Type} (lib : Lib V) (c : APIClient) (resp : Response)
    (h : (loginOutcome lib c resp).1 = .ok ()) :
    Accepted lib resp ∧ (loginOutcome lib c resp).2 = storeSession c resp.Cookies := by
  unfold loginOutcome at h ⊢
  cases hB : resp.Body with
  | error e => simp only [hB] at h; cases h
  | ok body =>
    simp only [hB] at h ⊢
    by_cases hs : resp.StatusCode ≠ 200
    · rw [if_pos hs] at h; cases h
    · rw [if_neg hs] at h ⊢
      cases hD : lib.unmarshalLoginResponse body with
      | error e => simp only [hD] at h; cases h
      | ok lr =>
        simp only [hD] at h ⊢
        by_cases hi : lr.ID = 0
        · rw [if_pos hi] at h; cases h
        · rw [if_neg hi]
          exact ⟨⟨not_not.mp hs, body, lr, hB, hD, hi⟩, rfl⟩

theorem SessionInv_authenticate {V : Type} (lib : Lib V) (env : Env) (c : APIClient) (w : World)
    (h : SessionInv lib c w) :
    SessionInv lib (authenticate lib env c w).2.1 (authenticate lib env c w).2.2 := by
  cases hres : (authenticate lib env c w).1 with
  | error e =>
    rw [authenticate_error_client lib env c w e hres]
    obtain ⟨ls, hls, _⟩ := authenticate_trace lib env c w
    exact SessionInv_extend lib c w _ ls (by rw [hls]) (by rw [hls]) h
  | ok u =>
    cases hreq : loginRequest lib env c with
    | error e =>
      unfold authenticate at hres
      simp only [hreq] at hres
      cases hres
    | ok req =>
      cases hu : w.upstream (w.sent ++ [req]) with
      | error e =>
        unfold authenticate at hres
        simp only [hreq, World.Do, hu] at hres
        cases hres
      | ok resp =>
        have hau := authenticate_of_response lib env c w req resp hreq hu
        rw [hau] at hres ⊢
        simp only at hres ⊢
        obtain ⟨hacc, hst⟩ := loginOutcome_ok lib c resp hres
        rw [hst]
        have hans : AnsweredLogin { w with sent := w.sent ++ [req] } resp :=
          ⟨w.sent, req, [], rfl,
            (isLogin_of_POST req (loginRequest_Method lib env c req hreq)).1, hu⟩
        obtain ⟨_, h2, _, _⟩ := storeSession_fields c resp.Cookies
        refine ⟨fun _ => ⟨resp, hans, hacc⟩, ?_⟩
        intro ht
        rw [h2] at ht ⊢
        cases hl : lastCookieValue "accessToken" resp.Cookies with
        | some v => exact ⟨resp, hans, hacc, by rw [hl]; rfl⟩
        | none =>
          rw [hl] at ht
          obtain ⟨r0, h1, h3, h4⟩ := h.2 ht
          exact ⟨r0, AnsweredLogin_mono w _ r0 [req] rfl rfl h1, h3, h4⟩

theorem SessionInv_ensureAuthenticated {V : Type} (lib : Lib V) (env : Env) (c : APIClient)
    (w : World) (h : SessionInv lib c w) :
    SessionInv lib (ensureAuthenticated lib env c w).2.1 (ensureAuthenticated lib env c w).2.2 := by
  unfold ensureAuthenticated
  split
  · exact SessionInv_authenticate lib env c w h
  · exact h

theorem SessionInv_exchange {V : Type} (lib : Lib V) (env : Env) (c : APIClient) (w : World)
    (id : String) (h : SessionInv lib c w) :
    SessionInv lib (GetStudentByID.exchange lib env c w id).2.1
      (GetStudentByID.exchange lib env c w id).2.2 := by
  have hA := SessionInv_ensureAuthenticated lib env c w h
  unfold GetStudentByID.exchange
  simp only
  split
  · exact hA
  · split
    · exact hA
    · rename_i req _
      have hD := SessionInv_Do lib _ _ req hA
      split
      · exact hD
      · split
        · have hB := SessionInv_authenticate lib env _ _ (SessionInv_invalidate lib _ _ hD)
          split
          · exact hB
          · split
            · exact hB
            · rename_i retryReq _
              have hD2 := SessionInv_Do lib _ _ retryReq hB
              split
              · exact hD2
              · exact hD2
        · exact hD

theorem SessionInv_GetStudentByID {V : Type} (lib : Lib V) (env : Env) (c : APIClient)
    (w : World) (id : String) (h : SessionInv lib c w) :
    SessionInv lib (GetStudentByID lib env c w id).2.1 (GetStudentByID lib env c w id).2.2 := by
  have hx := SessionInv_exchange lib env c w id h
  unfold GetStudentByID
  simp only
  split
  · exact hx
  · exact hx

/-! ### The headers of a record request -/

theorem NewRequest_ok {V : Type} (lib : Lib V) (m u : String) (b : Option String) (r : Request)
    (h : NewRequest lib m u b = .ok r) : r = { Method := m, URL := u, Header := [], Body := b } := by
  unfold NewRequest at h
  split at h
  · cases h
  · cases h; rfl

/-- The headers `createRequest` sets, written with the slice `cookieParts`. -/
theorem createRequest_Header {V : Type} (lib : Lib V) (c : APIClient) (id : String)
    (req : Request) (h : createRequest lib c id = .ok req) :
    req.Header =
      [("Content-Type", "application/json"), ("Accept", "application/json")] ++
        (if cookieParts c = [] then [] else [("Cookie", Join (cookieParts c) "; ")]) ++
        (if c.csrfToken ≠ "" then [("x-csrf-token", c.csrfToken)] else []) := by
  unfold createRequest at h
  split at h
  · cases h
  · rename_i req0 hreq0
    have h0 := NewRequest_ok lib _ _ _ _ hreq0
    subst h0
    simp only at h
    cases h
    by_cases ha : c.authToken = "" <;> by_cases hr : c.refreshToken = "" <;>
      by_cases hx : c.csrfToken = "" <;>
      simp [cookieParts, Request.Set, setHeader, ha, hr, hx]

/-- The slice `cookieParts` is the list of texts of the pairs of the specification. -/
theorem cookieParts_eq_pairs (c : APIClient) :
    cookieParts c = (sessionCookiePairs c).map cookiePairText := by
  by_cases ha : c.authToken = "" <;> by_cases hr : c.refreshToken = "" <;>
    by_cases hx : c.csrfToken = "" <;>
    simp [cookieParts, sessionCookiePairs, cookiePairText, ha, hr, hx, List.filter]

theorem find_Cookie_header (P Q : Prop) [Decidable P] [Decidable Q] (v t : String) :
    (List.find? (fun p => decide (p.1 = "Cookie"))
      ([("Content-Type", "application/json"), ("Accept", "application/json")] ++
        (if P then [] else [("Cookie", v)]) ++
        (if Q then [("x-csrf-token", t)] else []))).map (fun p => p.2) =
      if P then none else some v := by
  by_cases hP : P <;> by_cases hQ : Q <;> simp [hP, hQ, List.find?]

theorem find_csrf_header (P Q : Prop) [Decidable P] [Decidable Q] (v t : String) :
    (List.find? (fun p => decide (p.1 = "x-csrf-token"))
      ([("Content-Type", "application/json"), ("Accept", "application/json")] ++
        (if P then [] else [("Cookie", v)]) ++
        (if Q then [("x-csrf-token", t)] else []))).map (fun p => p.2) =
      if Q then some t else none := by
  by_cases hP : P <;> by_cases hQ : Q <;> simp [hP, hQ, List.find?]

theorem sessionCookiePairs_nil (c : APIClient) :
    sessionCookiePairs c = [] ↔ c.authToken = "" ∧ c.refreshToken = "" ∧ c.csrfToken = "" := by
  by_cases ha : c.authToken = "" <;> by_cases hr : c.refreshToken = "" <;>
    by_cases hx : c.csrfToken = "" <;>
    simp [sessionCookiePairs, ha, hr, hx, List.filter]

theorem csrf_mem_sessionCookiePairs (c : APIClient) (v : String) :
    ("csrfToken", v) ∈ sessionCookiePairs c ↔ c.csrfToken ≠ "" ∧ v = c.csrfToken := by
  unfold sessionCookiePairs
  simp only [List.mem_filter, List.mem_cons, Prod.mk.injEq, String.reduceEq, false_and,
    List.mem_singleton, true_and, false_or, List.not_mem_nil, or_false, decide_eq_true_eq]
  constructor
  · rintro ⟨h1, h2⟩
    subst h1
    exact ⟨h2, rfl⟩
  · rintro ⟨h1, h2⟩
    subst h2
    exact ⟨rfl, h1⟩

/-! ### Decimal renderings and formatted dates -/

theorem toDigitsCore_suffix (b : Nat) (fuel n : Nat) (ds : List Char) :
    ∃ pre, Nat.toDigitsCore b fuel n ds = pre ++ ds := by
  induction fuel generalizing n ds with
  | zero => exact ⟨[], rfl⟩
  | succ fuel ih =>
    unfold Nat.toDigitsCore
    simp only
    split
    · exact ⟨[Nat.digitChar (n % b)], rfl⟩
    · obtain ⟨pre, hpre⟩ := ih (n / b) (Nat.digitChar (n % b) :: ds)
      exact ⟨pre ++ [Nat.digitChar (n % b)], by rw [hpre]; simp⟩

/-- The decimal rendering of a natural number ends with its last digit. -/
theorem Nat_repr_last (n : Nat) : ∃ pre, (Nat.repr n).data = pre ++ [Nat.digitChar (n % 10)] := by
  unfold Nat.repr Nat.toDigits
  unfold Nat.toDigitsCore
  simp only
  split
  · exact ⟨[], rfl⟩
  · obtain ⟨pre, hpre⟩ := toDigitsCore_suffix 10 n (n / 10) [Nat.digitChar (n % 10)]
    exact ⟨pre, by rw [hpre]; rfl⟩

theorem digitChar_ne_A (k : Nat) (hk : k < 10) : Nat.digitChar k ≠ 'A' := by
  interval_cases k <;> decide

/-- The decimal rendering of an integer is never the placeholder. -/
theorem toString_int_ne_NA (n : Int) : toString n ≠ "N/A" := by
  intro h
  have hd : (toString n).data = ['N', '/', 'A'] := by rw [h]
  cases n with
  | ofNat m =>
    obtain ⟨pre, hpre⟩ := Nat_repr_last m
    have h1 : (toString (Int.ofNat m)).data = (Nat.repr m).data := rfl
    rw [h1, hpre] at hd
    have h2 := congrArg List.getLast? hd
    rw [List.getLast?_concat] at h2
    have h3 : Nat.digitChar (m % 10) = 'A' := by
      have : (['N', '/', 'A'] : List Char).getLast? = some 'A' := rfl
      rw [this] at h2
      exact Option.some.inj h2
    exact digitChar_ne_A _ (Nat.mod_lt _ (by decide)) h3
  | negSucc m =>
    obtain ⟨pre, hpre⟩ := Nat_repr_last (m + 1)
    have h1 : (toString (Int.negSucc m)).data = '-' :: (Nat.repr (m + 1)).data := rfl
    rw [h1, hpre] at hd
    have h2 := congrArg List.getLast? hd
    rw [show '-' :: (pre ++ [Nat.digitChar ((m + 1) % 10)]) =
      ('-' :: pre) ++ [Nat.digitChar ((m + 1) % 10)] from rfl] at h2
    rw [List.getLast?_concat] at h2
    have h3 : Nat.digitChar ((m + 1) % 10) = 'A' := by
      have : (['N', '/', 'A'] : List Char).getLast? = some 'A' := rfl
      rw [this] at h2
      exact Option.some.inj h2
    exact digitChar_ne_A _ (Nat.mod_lt _ (by decide)) h3

theorem formatLongDate_ne_empty (year month day : Nat) : formatLongDate year month day ≠ "" := by
  intro h
  have hl := congrArg String.length h
  unfold formatLongDate at hl
  simp only [String.length_append] at hl
  have h1 : (" " : String).length = 1 := rfl
  have h0 : ("" : String).length = 0 := rfl
  rw [h1, h0] at hl
  omega

/-- The formatted date is never the empty string. -/
theorem FormatDate_ne_empty (v : Option String) : FormatDate v ≠ "" := by
  unfold FormatDate
  cases v with
  | none => decide
  | some s =>
    simp only
    split
    · decide
    · rename_i hs
      split
      · exact formatLongDate_ne_empty _ _ _
      · exact hs

/-! ### Tokens are never cleared -/

theorem lastCookieValue_ne_empty (name : String) (ks : List Cookie) (v : String)
    (h : lastCookieValue name ks = some v) : v ≠ "" := by
  induction ks with
  | nil => cases h
  | cons k ks ih =>
    rw [lastCookieValue_cons] at h
    cases hl : lastCookieValue name ks with
    | some u =>
      rw [hl] at h
      cases h
      exact ih hl
    | none =>
      rw [hl] at h
      simp only at h
      split at h
      · rename_i hk
        cases h
        exact hk.2
      · cases h

theorem lastCookieValue_none (name : String) (ks : List Cookie)
    (h : ∀ k ∈ ks, k.Name = name → k.Value = "") : lastCookieValue name ks = none := by
  induction ks with
  | nil => rfl
  | cons k ks ih =>
    rw [lastCookieValue_cons, ih (fun q hq => h q (List.mem_cons_of_mem _ hq))]
    simp only
    rw [if_neg]
    rintro ⟨h1, h2⟩
    exact h2 (h k (List.mem_cons_self _ _) h1)

theorem TokensKept_refl (c : APIClient) : TokensKept c c := ⟨id, id, id⟩

theorem TokensKept_invalidate (c : APIClient) :
    TokensKept c { c with authenticated := false } := ⟨fun h => h, fun h => h, fun h => h⟩

theorem TokensKept_trans (a b c : APIClient) (h1 : TokensKept a b) (h2 : TokensKept b c) :
    TokensKept a c :=
  ⟨fun h => h2.1 (h1.1 h), fun h => h2.2.1 (h1.2.1 h), fun h => h2.2.2 (h1.2.2 h)⟩

theorem getD_ne_empty (o : Option String) (old : String) (ho : ∀ v, o = some v → v ≠ "")
    (hold : old ≠ "") : o.getD old ≠ "" := by
  cases o with
  | none => exact hold
  | some v => exact ho v rfl

theorem TokensKept_storeSession (c : APIClient) (ks : List Cookie) :
    TokensKept c (storeSession c ks) := by
  obtain ⟨_, h2, h3, h4⟩ := storeSession_fields c ks
  refine ⟨?_, ?_, ?_⟩
  · intro h; rw [h2]
    exact getD_ne_empty _ _ (fun v hv => lastCookieValue_ne_empty _ _ v hv) h
  · intro h; rw [h3]
    exact getD_ne_empty _ _ (fun v hv => lastCookieValue_ne_empty _ _ v hv) h
  · intro h; rw [h4]
    exact getD_ne_empty _ _ (fun v hv => lastCookieValue_ne_empty _ _ v hv) h

/-- The client after `authenticate`: as it was, or the session stored from the
cookies of the response that answered the login request. -/
theorem authenticate_client {V : Type} (lib : Lib V) (env : Env) (c : APIClient) (w : World) :
    (authenticate lib env c w).2.1 = c ∨
    ∃ req resp, loginRequest lib env c = .ok req ∧ w.upstream (w.sent ++ [req]) = .ok resp ∧
      (authenticate lib env c w).1 = .ok () ∧
      (authenticate lib env c w).2.1 = storeSession c resp.Cookies := by
  cases hres : (authenticate lib env c w).1 with
  | error e => exact Or.inl (authenticate_error_client lib env c w e hres)
  | ok u =>
    right
    cases hreq : loginRequest lib env c with
    | error e =>
      unfold authenticate at hres
      simp only [hreq] at hres
      cases hres
    | ok req =>
      cases hu : w.upstream (w.sent ++ [req]) with
      | error e =>
        unfold authenticate at hres
        simp only [hreq, World.Do, hu] at hres
        cases hres
      | ok resp =>
        have hau := authenticate_of_response lib env c w req resp hreq hu
        have hres1 : (loginOutcome lib c resp).1 = .ok () := by
          rw [hau] at hres
          cases u
          exact hres
        refine ⟨req, resp, rfl, hu, rfl, ?_⟩
        rw [hau]
        exact (loginOutcome_ok lib c resp hres1).2

theorem TokensKept_authenticate {V : Type} (lib : Lib V) (env : Env) (c : APIClient) (w : World) :
    TokensKept c (authenticate lib env c w).2.1 := by
  rcases authenticate_client lib env c w with h | ⟨_, resp, _, _, _, h⟩
  · rw [h]; exact TokensKept_refl c
  · rw [h]; exact TokensKept_storeSession c _

theorem TokensKept_ensureAuthenticated {V : Type} (lib : Lib V) (env : Env) (c : APIClient)
    (w : World) : TokensKept c (ensureAuthenticated lib env c w).2.1 := by
  unfold ensureAuthenticated
  split
  · exact TokensKept_authenticate lib env c w
  · exact TokensKept_refl c

theorem TokensKept_exchange {V : Type} (lib : Lib V) (env : Env) (c : APIClient) (w : World)
    (id : String) : TokensKept c (GetStudentByID.exchange lib env c w id).2.1 := by
  have hA := TokensKept_ensureAuthenticated lib env c w
  unfold GetStudentByID.exchange
  simp only
  split
  · exact hA
  · split
    · exact hA
    · split
      · exact hA
      · split
        · have hB : ∀ (w1 : World), TokensKept c
              (authenticate lib env
                { (ensureAuthenticated lib env c w).2.1 with authenticated := false } w1).2.1 :=
            fun w1 => TokensKept_trans _ _ _ hA
              (TokensKept_trans _
                { (ensureAuthenticated lib env c w).2.1 with authenticated := false } _
                (TokensKept_invalidate _) (TokensKept_authenticate lib env _ w1))
          split
          · exact hB _
          · split
            · exact hB _
            · split
              · exact hB _
              · exact hB _
        · exact hA

theorem TokensKept_GetStudentByID {V : Type} (lib : Lib V) (env : Env) (c : APIClient)
    (w : World) (id : String) : TokensKept c (GetStudentByID lib env c w id).2.1 := by
  have hx := TokensKept_exchange lib env c w id
  unfold GetStudentByID
  simp only
  split
  · exact hx
  · exact hx

theorem TokensKept_getCsrfToken {V : Type} (lib : Lib V) (c : APIClient) (w : World) :
    TokensKept c (getCsrfToken lib c w).2 := by
  unfold getCsrfToken
  split
  · exact TokensKept_refl c
  · rename_i hx
    have hx1 : c.csrfToken = "" := not_not.mp hx
    split
    · exact TokensKept_refl c
    · split
      · exact TokensKept_refl c
      · split
        · exact ⟨fun h => h, fun h => h, fun h => absurd hx1 h⟩
        · exact TokensKept_refl c

theorem TokensKept_step {V : Type} (lib : Lib V) (s t : APIClient × World)
    (h : SessionStep lib s t) : TokensKept s.1 t.1 := by
  cases h with
  | login env c w => exact TokensKept_authenticate lib env c w
  | invalidate c w => exact TokensKept_invalidate c
  | fetch env id c w => exact TokensKept_GetStudentByID lib env c w id
  | csrfLookup c w => exact TokensKept_getCsrfToken lib c w

theorem TokensKept_steps {V : Type} (lib : Lib V) (s t : APIClient × World)
    (h : Relation.ReflTransGen (SessionStep lib) s t) : TokensKept s.1 t.1 := by
  induction h with
  | refl => exact TokensKept_refl _
  | tail _ hstep ih => exact TokensKept_trans _ _ _ ih (TokensKept_step lib _ _ hstep)

/-- The request `createRequest` builds depends on the base URL and the three
token fields only. -/
theorem createRequest_congr {V : Type} (lib : Lib V) (c c2 : APIClient) (id : String)
    (hb : c2.baseURL = c.baseURL) (ha : c2.authToken = c.authToken)
    (hr : c2.refreshToken = c.refreshToken) (hx : c2.csrfToken = c.csrfToken) :
    createRequest lib c2 id = createRequest lib c id := by
  unfold createRequest
  rw [hb, ha, hr, hx]

theorem mem_sessionCookiePairs (c : APIClient) :
    (c.authToken ≠ "" → ("accessToken", c.authToken) ∈ sessionCookiePairs c) ∧
    (c.refreshToken ≠ "" → ("refreshToken", c.refreshToken) ∈ sessionCookiePairs c) ∧
    (c.csrfToken ≠ "" → ("csrfToken", c.csrfToken) ∈ sessionCookiePairs c) := by
  unfold sessionCookiePairs
  refine ⟨?_, ?_, ?_⟩ <;> intro h <;> simp [List.mem_filter, h]

/-- The token fields after an accepted login whose response does not re-issue a
cookie: the field of that cookie is what it was. -/
theorem storeSession_not_reissued (c : APIClient) (ks : List Cookie) :
    ((∀ k ∈ ks, k.Name = "accessToken" → k.Value = "") →
      (storeSession c ks).authToken = c.authToken) ∧
    ((∀ k ∈ ks, k.Name = "refreshToken" → k.Value = "") →
      (storeSession c ks).refreshToken = c.refreshToken) ∧
    ((∀ k ∈ ks, k.Name = "csrfToken" → k.Value = "") →
      (storeSession c ks).csrfToken = c.csrfToken) := by
  obtain ⟨_, h2, h3, h4⟩ := storeSession_fields c ks
  refine ⟨?_, ?_, ?_⟩
  · intro h; rw [h2, lastCookieValue_none _ _ h]; rfl
  · intro h; rw [h3, lastCookieValue_none _ _ h]; rfl
  · intro h; rw [h4, lastCookieValue_none _ _ h]; rfl

/-- The token fields after any login: a cookie that is not re-issued leaves its
field as it was. -/
theorem authenticate_not_reissued {V : Type} (lib : Lib V) (env : Env) (c : APIClient)
    (w : World) (req : Request) (resp : Response)
    (hreq : loginRequest lib env c = .ok req)
    (hresp : w.upstream (w.sent ++ [req]) = .ok resp) :
    ((∀ k ∈ resp.Cookies, k.Name = "accessToken" → k.Value = "") →
      (authenticate lib env c w).2.1.authToken = c.authToken) ∧
    ((∀ k ∈ resp.Cookies, k.Name = "refreshToken" → k.Value = "") →
      (authenticate lib env c w).2.1.refreshToken = c.refreshToken) ∧
    ((∀ k ∈ resp.Cookies, k.Name = "csrfToken" → k.Value = "") →
      (authenticate lib env c w).2.1.csrfToken = c.csrfToken) := by
  rcases authenticate_client lib env c w with h | ⟨req1, resp1, hreq1, hresp1, _, h⟩
  · rw [h]
    exact ⟨fun _ => rfl, fun _ => rfl, fun _ => rfl⟩
  · rw [hreq] at hreq1
    cases hreq1
    rw [hresp] at hresp1
    cases hresp1
    rw [h]
    exact storeSession_not_reissued c resp.Cookies

/-! ## Properties of the client, the decoder and the handler -/

/-! ### The report handler -/

/-- C1: a report request (the second piece of its path is `report`) whose
identifier piece is rejected by `strconv.Atoi` is answered with status 400 and the
body `Invalid student ID`, and the world is returned untouched: the reply is
produced before the client is constructed, with no login and no record request. -/
theorem GenerateStudentReport_invalid_id {V : Type} (lib : Lib V) (env : Env) (w : World)
    (urlPath : String)
    (hlen : 2 ≤ (requestParts urlPath).length)
    (hrep : (requestParts urlPath).get? 1 = some "report")
    (hid : Atoi ((requestParts urlPath).headD "") = none) :
    (GenerateStudentReport lib env w urlPath).1.Code = 400 ∧
    (GenerateStudentReport lib env w urlPath).1.Body = "Invalid student ID\n" ∧
    (GenerateStudentReport lib env w urlPath).2 = w ∧
    (GenerateStudentReport lib env w urlPath).2.sent = w.sent := by
  have hfmt : ¬ ((requestParts urlPath).length < 2 ∨
      (requestParts urlPath).get? 1 ≠ some "report") := by
    rintro (h | h)
    · omega
    · exact h hrep
  have hres : GenerateStudentReport lib env w urlPath = (httpError "Invalid student ID" 400, w) := by
    unfold GenerateStudentReport
    simp only [requestParts] at hfmt hid
    simp only [hfmt, if_false, hid]
  rw [hres]
  exact ⟨rfl, by simp only [httpError]; decide, rfl, rfl⟩

/-- C1 at the path `/api/v1/students/abc/report`, against an upstream that would
accept the login and serve the record. -/
theorem GenerateStudentReport_invalid_id_witness :
    (2 ≤ (requestParts "/api/v1/students/abc/report").length ∧
      (requestParts "/api/v1/students/abc/report").get? 1 = some "report" ∧
      Atoi ((requestParts "/api/v1/students/abc/report").headD "") = none) ∧
    (GenerateStudentReport sampleLib sampleEnv (scriptedWorld [okLogin, okRecord] [])
        "/api/v1/students/abc/report").1.Code = 400 ∧
    (GenerateStudentReport sampleLib sampleEnv (scriptedWorld [okLogin, okRecord] [])
        "/api/v1/students/abc/report").1.Body = "Invalid student ID\n" ∧
    (GenerateStudentReport sampleLib sampleEnv (scriptedWorld [okLogin, okRecord] [])
        "/api/v1/students/abc/report").2 = scriptedWorld [okLogin, okRecord] [] ∧
    (GenerateStudentReport sampleLib sampleEnv (scriptedWorld [okLogin, okRecord] [])
        "/api/v1/students/abc/report").2.sent = (scriptedWorld [okLogin, okRecord] []).sent :=
  ⟨⟨by decide, by decide, by decide⟩,
    GenerateStudentReport_invalid_id sampleLib sampleEnv (scriptedWorld [okLogin, okRecord] [])
      "/api/v1/students/abc/report" (by decide) (by decide) (by decide)⟩

/-! ### Re-authentication and retry -/

/-- C2 fails as stated: the first record request is answered 401 and the login
that follows is rejected (status 500); the call then ends with the
re-authentication error after a single record request, so no retry is made. -/
theorem GetStudentByID_no_retry_after_rejected_relogin :
    statusOf ((scriptedWorld [okLogin, unauthorized, rejectedLogin] []).upstream
      ((GetStudentByID sampleLib sampleEnv (NewAPIClient sampleLib sampleEnv)
        (scriptedWorld [okLogin, unauthorized, rejectedLogin] []) "1").2.2.sent.take 2)) = some 401 ∧
    (GetStudentByID sampleLib sampleEnv (NewAPIClient sampleLib sampleEnv)
      (scriptedWorld [okLogin, unauthorized, rejectedLogin] []) "1").2.2.sent.map
        (fun r => r.Method) = ["POST", "GET", "POST"] ∧
    (GetStudentByID sampleLib sampleEnv (NewAPIClient sampleLib sampleEnv)
      (scriptedWorld [okLogin, unauthorized, rejectedLogin] []) "1").2.2.sent.countP
        isRecordRequest = 1 ∧
    errorOf (GetStudentByID sampleLib sampleEnv (NewAPIClient sampleLib sampleEnv)
      (scriptedWorld [okLogin, unauthorized, rejectedLogin] []) "1").1 =
      some "failed to re-authenticate after 401: login failed with status 500: boom" := by
  decide

/-- C2 as amended: when the first record request is answered 401, the client
invalidates the session and calls `authenticate` once, which issues at most one
login request.  If that login fails the call returns the re-authentication error
and no retry is made.  If it succeeds exactly one more record request is issued,
built from the refreshed session, and whatever answers it is the final response;
when that answer is again a 401 nothing more is sent and the caller gets the
error carrying that second response.  In all cases the call issues at most two
record requests and at most two logins. -/
theorem GetStudentByID_retry_once {V : Type} (lib : Lib V) (env : Env) (c c1 c2 : APIClient)
    (w w1 w2 : World) (id : String) (req : Request) (resp : Response)
    (rb : Except String Unit)
    (hens : ensureAuthenticated lib env c w = (.ok (), c1, w1))
    (hreq : createRequest lib c1 id = .ok req)
    (hresp : w1.upstream (w1.sent ++ [req]) = .ok resp)
    (h401 : resp.StatusCode = 401)
    (hb : authenticate lib env { c1 with authenticated := false }
      { w1 with sent := w1.sent ++ [req] } = (rb, c2, w2)) :
    (w2.sent = w1.sent ++ [req] ∨
      ∃ l, isLoginRequest l = true ∧ w2.sent = w1.sent ++ [req] ++ [l]) ∧
    (∀ e, rb = .error e →
      GetStudentByID lib env c w id =
        (.error ("failed to re-authenticate after 401: " ++ e), c2, w2)) ∧
    (rb = .ok () →
      ∃ retryReq, createRequest lib c2 id = .ok retryReq ∧ isRecordRequest retryReq = true ∧
        (GetStudentByID lib env c w id).2.2.sent = w2.sent ++ [retryReq] ∧
        (GetStudentByID lib env c w id).2.1 = c2 ∧
        ∀ resp2, w2.upstream (w2.sent ++ [retryReq]) = .ok resp2 →
          (GetStudentByID.exchange lib env c w id).1 = .ok resp2 ∧
          ∀ body2, resp2.StatusCode = 401 → resp2.Body = .ok body2 →
            (GetStudentByID lib env c w id).1 = .error ("API returned status 401: " ++ body2)) ∧
    (issuedSince w (GetStudentByID lib env c w id).2.2).countP isRecordRequest ≤ 2 ∧
    (issuedSince w (GetStudentByID lib env c w id).2.2).countP isLoginRequest ≤ 2 := by
  have hx := exchange_after_401 lib env c c1 c2 w w1 w2 id req resp rb hens hreq hresp h401 hb
  have hreqm := isRecord_of_GET req (createRequest_Method lib c1 id req hreq)
  -- the log after the re-authentication
  obtain ⟨ls1, hls1, hl1, hr1, _, hshape1⟩ := authenticate_trace lib env
    { c1 with authenticated := false } { w1 with sent := w1.sent ++ [req] }
  rw [hb] at hls1
  simp only at hls1
  have hw2 : w2.sent = w1.sent ++ [req] ++ ls1 := by rw [hls1]
  -- the log after the first authentication
  obtain ⟨ls0, hls0, hl0, hr0, _⟩ := ensureAuthenticated_trace lib env c w
  rw [hens] at hls0
  simp only at hls0
  have hw1 : w1.sent = w.sent ++ ls0 := by rw [hls0]
  -- the base URL is the one the first request was built with
  have hbase : c2.baseURL = c1.baseURL := by
    have := authenticate_baseURL lib env { c1 with authenticated := false }
      { w1 with sent := w1.sent ++ [req] }
    rw [hb] at this
    exact this
  obtain ⟨retryReq, hretry⟩ := createRequest_ok_of_baseURL lib c1 c2 id req hreq hbase
  have hretrym := isRecord_of_GET retryReq (createRequest_Method lib c2 id retryReq hretry)
  refine ⟨?_, ?_, ?_, ?_⟩
  · rcases hshape1 with h | ⟨l, hl, h⟩
    · left; rw [hw2, h, List.append_nil]
    · right
      exact ⟨l, (isLogin_of_POST l (loginRequest_Method lib env _ l hl)).1, by rw [hw2, h]⟩
  · intro e he
    subst he
    unfold GetStudentByID
    rw [hx]
  · intro hok
    subst hok
    refine ⟨retryReq, hretry, hretrym.1, ?_, ?_, ?_⟩
    · unfold GetStudentByID
      rw [hx]
      simp only [hretry]
      cases w2.upstream (w2.sent ++ [retryReq]) <;> rfl
    · unfold GetStudentByID
      rw [hx]
      simp only [hretry]
      cases w2.upstream (w2.sent ++ [retryReq]) <;> rfl
    · intro resp2 h2
      refine ⟨by rw [hx]; simp only [hretry, h2], ?_⟩
      intro body2 hs hbody
      unfold GetStudentByID
      rw [hx]
      simp only [hretry, h2]
      unfold GetStudentByID.decode
      simp only [hbody, hs]
      rfl
  · have hfinal : (GetStudentByID lib env c w id).2.2.sent = w2.sent ∨
        (GetStudentByID lib env c w id).2.2.sent = w2.sent ++ [retryReq] := by
      unfold GetStudentByID
      rw [hx]
      cases rb with
      | error e => left; rfl
      | ok u =>
        right
        simp only [hretry]
        cases w2.upstream (w2.sent ++ [retryReq]) <;> rfl
    unfold issuedSince
    rcases hfinal with h | h
    · rw [h, hw2, hw1]
      simp only [List.append_assoc, List.drop_left, List.countP_append, List.countP_cons,
        List.countP_nil, hreqm.1, hreqm.2]
      constructor <;> simp <;> omega
    · rw [h, hw2, hw1]
      simp only [List.append_assoc, List.drop_left, List.countP_append, List.countP_cons,
        List.countP_nil, hreqm.1, hreqm.2, hretrym.1, hretrym.2]
      constructor <;> simp <;> omega

/-- C2 as amended, against an upstream that accepts both logins and answers both
record requests with 401: two logins, two record requests, nothing more. -/
theorem GetStudentByID_retry_once_witness :
    (ensureAuthenticated sampleLib sampleEnv (NewAPIClient sampleLib sampleEnv)
        alwaysUnauthorized =
        (.ok (), sampleSession, { alwaysUnauthorized with sent := [sampleLoginRequest] }) ∧
      createRequest sampleLib sampleSession "1" = .ok sampleRecordRequest ∧
      alwaysUnauthorized.upstream ([sampleLoginRequest] ++ [sampleRecordRequest]) =
        .ok unauthorized ∧
      unauthorized.StatusCode = 401 ∧
      authenticate sampleLib sampleEnv { sampleSession with authenticated := false }
        { alwaysUnauthorized with sent := [sampleLoginRequest] ++ [sampleRecordRequest] } =
        (.ok (), sampleSession, { alwaysUnauthorized with
          sent := [sampleLoginRequest, sampleRecordRequest, sampleLoginRequest] })) ∧
    (issuedSince alwaysUnauthorized
      (GetStudentByID sampleLib sampleEnv (NewAPIClient sampleLib sampleEnv) alwaysUnauthorized
        "1").2.2).countP isRecordRequest ≤ 2 ∧
    (issuedSince alwaysUnauthorized
      (GetStudentByID sampleLib sampleEnv (NewAPIClient sampleLib sampleEnv) alwaysUnauthorized
        "1").2.2).countP isLoginRequest ≤ 2 :=
  ⟨⟨rfl, rfl, rfl, rfl, rfl⟩,
    (GetStudentByID_retry_once sampleLib sampleEnv (NewAPIClient sampleLib sampleEnv)
      sampleSession sampleSession alwaysUnauthorized
      { alwaysUnauthorized with sent := [sampleLoginRequest] }
      { alwaysUnauthorized with
        sent := [sampleLoginRequest, sampleRecordRequest, sampleLoginRequest] }
      "1" sampleRecordRequest unauthorized (.ok ()) rfl rfl rfl rfl rfl).2.2.2⟩

/-! ### Logging in -/

/-- C3: when the login request is answered by a response whose body decodes with
identity id 0, `authenticate` returns an error and the client is exactly as it
was: a session that was unauthenticated is still unauthenticated and no token
field has changed.  With status 200 the error is `login failed: invalid response`. -/
theorem authenticate_zero_id {V : Type} (lib : Lib V) (env : Env) (c : APIClient) (w : World)
    (req : Request) (resp : Response) (body : String) (lr : LoginResponse)
    (hreq : loginRequest lib env c = .ok req)
    (hresp : w.upstream (w.sent ++ [req]) = .ok resp)
    (hbody : resp.Body = .ok body)
    (hdec : lib.unmarshalLoginResponse body = .ok lr)
    (hid : lr.ID = 0) :
    (∃ e, (authenticate lib env c w).1 = .error e) ∧
    (resp.StatusCode = 200 →
      (authenticate lib env c w).1 = .error "login failed: invalid response") ∧
    (authenticate lib env c w).2.1 = c ∧
    (isAuthenticated c = false → isAuthenticated (authenticate lib env c w).2.1 = false) ∧
    (authenticate lib env c w).2.1.authToken = c.authToken ∧
    (authenticate lib env c w).2.1.refreshToken = c.refreshToken ∧
    (authenticate lib env c w).2.1.csrfToken = c.csrfToken := by
  have hres : (authenticate lib env c w).1 =
      if resp.StatusCode ≠ 200 then
        .error ("login failed with status " ++ toString resp.StatusCode ++ ": " ++ body)
      else .error "login failed: invalid response" := by
    rw [authenticate_of_response lib env c w req resp hreq hresp]
    unfold loginOutcome
    simp only [hbody, hdec, hid, if_true]
    split <;> rfl
  have herr : ∃ e, (authenticate lib env c w).1 = .error e := by
    rw [hres]
    split
    · exact ⟨_, rfl⟩
    · exact ⟨_, rfl⟩
  obtain ⟨e, he⟩ := herr
  have hc := authenticate_error_client lib env c w e he
  refine ⟨⟨e, he⟩, ?_, hc, ?_, by rw [hc], by rw [hc], by rw [hc]⟩
  · intro hs
    rw [hres, if_neg (by simp [hs])]
  · intro h
    rw [hc]
    exact h

/-- C3 for a login answered with status 200, body `{"id":0}` and two cookies:
the fresh client stays unauthenticated and stores nothing. -/
theorem authenticate_zero_id_witness :
    (loginRequest sampleLib sampleEnv (NewAPIClient sampleLib sampleEnv) = .ok sampleLoginRequest ∧
      (scriptedWorld [zeroIdLogin] []).upstream
        ((scriptedWorld [zeroIdLogin] []).sent ++ [sampleLoginRequest]) = .ok zeroIdLogin ∧
      zeroIdLogin.Body = .ok "\x7b\"id\":0\x7d" ∧
      sampleLib.unmarshalLoginResponse "\x7b\"id\":0\x7d" =
        .ok { ID := 0, Name := "", Email := "", Role := "", Token := "" }) ∧
    (authenticate sampleLib sampleEnv (NewAPIClient sampleLib sampleEnv)
      (scriptedWorld [zeroIdLogin] [])).2.1 = NewAPIClient sampleLib sampleEnv :=
  ⟨⟨rfl, rfl, rfl, rfl⟩,
    (authenticate_zero_id sampleLib sampleEnv (NewAPIClient sampleLib sampleEnv)
      (scriptedWorld [zeroIdLogin] []) sampleLoginRequest zeroIdLogin "\x7b\"id\":0\x7d"
      { ID := 0, Name := "", Email := "", Role := "", Token := "" } rfl rfl rfl rfl rfl).2.2.1⟩

/-- C4: when the login request is answered with status 200 and a body that
decodes with a non-zero identity id, `authenticate` succeeds whatever cookies the
response carries, `isAuthenticated` is then true, and for each of `accessToken`,
`refreshToken` and `csrfToken` the session field holds the value of the last cookie
of that name with a non-empty value, whenever the response has one. -/
theorem authenticate_success {V : Type} (lib : Lib V) (env : Env) (c : APIClient) (w : World)
    (req : Request) (resp : Response) (body : String) (lr : LoginResponse)
    (hreq : loginRequest lib env c = .ok req)
    (hresp : w.upstream (w.sent ++ [req]) = .ok resp)
    (hstatus : resp.StatusCode = 200)
    (hbody : resp.Body = .ok body)
    (hdec : lib.unmarshalLoginResponse body = .ok lr)
    (hid : lr.ID ≠ 0) :
    (authenticate lib env c w).1 = .ok () ∧
    isAuthenticated (authenticate lib env c w).2.1 = true ∧
    (∀ v, lastCookieValue "accessToken" resp.Cookies = some v →
      (authenticate lib env c w).2.1.authToken = v) ∧
    (∀ v, lastCookieValue "refreshToken" resp.Cookies = some v →
      (authenticate lib env c w).2.1.refreshToken = v) ∧
    (∀ v, lastCookieValue "csrfToken" resp.Cookies = some v →
      (authenticate lib env c w).2.1.csrfToken = v) := by
  have hout : loginOutcome lib c resp = (.ok (), storeSession c resp.Cookies) := by
    unfold loginOutcome
    simp only [hbody, hdec]
    rw [if_neg (by simp [hstatus]), if_neg hid]
  rw [authenticate_of_response lib env c w req resp hreq hresp, hout]
  obtain ⟨h1, h2, h3, h4⟩ := storeSession_fields c resp.Cookies
  refine ⟨rfl, h1, ?_, ?_, ?_⟩
  · intro v hv
    show (storeSession c resp.Cookies).authToken = v
    rw [h2, hv]; rfl
  · intro v hv
    show (storeSession c resp.Cookies).refreshToken = v
    rw [h3, hv]; rfl
  · intro v hv
    show (storeSession c resp.Cookies).csrfToken = v
    rw [h4, hv]; rfl

/-- C4 for a login whose response repeats the access token, carries an empty
anti-forgery cookie and no refresh cookie: the login succeeds and the last
access token is stored. -/
theorem authenticate_success_witness :
    (loginRequest sampleLib sampleEnv (NewAPIClient sampleLib sampleEnv) = .ok sampleLoginRequest ∧
      (scriptedWorld [partialLogin] []).upstream
        ((scriptedWorld [partialLogin] []).sent ++ [sampleLoginRequest]) = .ok partialLogin ∧
      partialLogin.StatusCode = 200 ∧
      partialLogin.Body = .ok "\x7b\"id\":1\x7d" ∧
      sampleLib.unmarshalLoginResponse "\x7b\"id\":1\x7d" =
        .ok { ID := 1, Name := "", Email := "", Role := "", Token := "" } ∧
      (1 : Int) ≠ 0 ∧
      lastCookieValue "accessToken" partialLogin.Cookies = some "new") ∧
    (authenticate sampleLib sampleEnv (NewAPIClient sampleLib sampleEnv)
      (scriptedWorld [partialLogin] [])).2.1.authToken = "new" :=
  ⟨⟨rfl, rfl, rfl, rfl, rfl, by decide, by decide⟩,
    (authenticate_success sampleLib sampleEnv (NewAPIClient sampleLib sampleEnv)
      (scriptedWorld [partialLogin] []) sampleLoginRequest partialLogin "\x7b\"id\":1\x7d"
      { ID := 1, Name := "", Email := "", Role := "", Token := "" } rfl rfl rfl rfl rfl
      (by decide)).2.2.1 "new" (by decide)⟩

/-- C5: when the first record request is answered 401, the login that follows
succeeds, and the retried record request is answered with status 200 and an
envelope with `success = true` whose payload decodes to the record `s`, then
`GetStudentByID` returns `s` without an error, and the request that was retried is
the one `createRequest` builds from the client as the re-login left it. -/
theorem GetStudentByID_recovers_after_401 {V : Type} (lib : Lib V) (env : Env)
    (c c1 c2 : APIClient) (w w1 w2 : World) (id : String) (req retryReq : Request)
    (resp resp2 : Response) (body2 : String) (d : V) (msg studentData : String) (s : Student)
    (hens : ensureAuthenticated lib env c w = (.ok (), c1, w1))
    (hreq : createRequest lib c1 id = .ok req)
    (hresp : w1.upstream (w1.sent ++ [req]) = .ok resp)
    (h401 : resp.StatusCode = 401)
    (hb : authenticate lib env { c1 with authenticated := false }
      { w1 with sent := w1.sent ++ [req] } = (.ok (), c2, w2))
    (hretry : createRequest lib c2 id = .ok retryReq)
    (hresp2 : w2.upstream (w2.sent ++ [retryReq]) = .ok resp2)
    (hstatus2 : resp2.StatusCode = 200)
    (hbody2 : resp2.Body = .ok body2)
    (henv : lib.unmarshalAPIResponse body2 = .ok { Success := true, Data := d, Message := msg })
    (hmar : lib.marshalData d = .ok studentData)
    (hstu : lib.unmarshalStudent studentData = .ok s) :
    (GetStudentByID lib env c w id).1 = .ok s ∧
    (GetStudentByID lib env c w id).2.1 = c2 ∧
    (GetStudentByID lib env c w id).2.2.sent = w2.sent ++ [retryReq] ∧
    (GetStudentByID lib env c w id).2.2.sent.getLast? = some retryReq := by
  have hx := exchange_after_401 lib env c c1 c2 w w1 w2 id req resp (.ok ()) hens hreq hresp
    h401 hb
  simp only [hretry, hresp2] at hx
  have hdec : GetStudentByID.decode lib resp2 = .ok s := by
    unfold GetStudentByID.decode
    simp only [hbody2, henv, hmar, hstu]
    rw [if_neg (by simp [hstatus2])]
    rfl
  have hg : GetStudentByID lib env c w id =
      (.ok s, c2, { w2 with sent := w2.sent ++ [retryReq] }) := by
    unfold GetStudentByID
    rw [hx]
    simp only [hdec]
  rw [hg]
  exact ⟨rfl, rfl, rfl, by simp⟩

/-- C5 against an upstream whose session expires once: the caller gets the
record, and the retried request carries the cookies of the second login. -/
theorem GetStudentByID_recovers_after_401_witness :
    (ensureAuthenticated sampleLib sampleEnv (NewAPIClient sampleLib sampleEnv) expiredOnce =
        (.ok (), sampleSession, { expiredOnce with sent := [sampleLoginRequest] }) ∧
      createRequest sampleLib sampleSession "1" = .ok sampleRecordRequest ∧
      expiredOnce.upstream ([sampleLoginRequest] ++ [sampleRecordRequest]) = .ok unauthorized ∧
      unauthorized.StatusCode = 401 ∧
      authenticate sampleLib sampleEnv { sampleSession with authenticated := false }
        { expiredOnce with sent := [sampleLoginRequest] ++ [sampleRecordRequest] } =
        (.ok (), refreshedSession, { expiredOnce with
          sent := [sampleLoginRequest, sampleRecordRequest, sampleLoginRequest] }) ∧
      createRequest sampleLib refreshedSession "1" = .ok refreshedRecordRequest ∧
      expiredOnce.upstream ([sampleLoginRequest, sampleRecordRequest, sampleLoginRequest] ++
        [refreshedRecordRequest]) = .ok okRecord ∧
      okRecord.StatusCode = 200 ∧
      okRecord.Body = .ok "\x7b\"success\":true\x7d" ∧
      sampleLib.unmarshalAPIResponse "\x7b\"success\":true\x7d" =
        .ok { Success := true, Data := (), Message := "" } ∧
      sampleLib.marshalData () = .ok "\x7b\"id\":1,\"name\":\"John Doe\"\x7d" ∧
      sampleLib.unmarshalStudent "\x7b\"id\":1,\"name\":\"John Doe\"\x7d" = .ok johnDoe) ∧
    (GetStudentByID sampleLib sampleEnv (NewAPIClient sampleLib sampleEnv) expiredOnce "1").1 =
      .ok johnDoe ∧
    (GetStudentByID sampleLib sampleEnv (NewAPIClient sampleLib sampleEnv) expiredOnce
      "1").2.2.sent.getLast? = some refreshedRecordRequest :=
  ⟨⟨rfl, rfl, rfl, rfl, rfl, rfl, rfl, rfl, rfl, rfl, rfl, rfl⟩,
    (GetStudentByID_recovers_after_401 sampleLib sampleEnv (NewAPIClient sampleLib sampleEnv)
      sampleSession refreshedSession expiredOnce
      { expiredOnce with sent := [sampleLoginRequest] }
      { expiredOnce with sent := [sampleLoginRequest, sampleRecordRequest, sampleLoginRequest] }
      "1" sampleRecordRequest refreshedRecordRequest unauthorized okRecord
      "\x7b\"success\":true\x7d" () "" "\x7b\"id\":1,\"name\":\"John Doe\"\x7d" johnDoe
      rfl rfl rfl rfl rfl rfl rfl rfl rfl rfl rfl rfl).1,
    (GetStudentByID_recovers_after_401 sampleLib sampleEnv (NewAPIClient sampleLib sampleEnv)
      sampleSession refreshedSession expiredOnce
      { expiredOnce with sent := [sampleLoginRequest] }
      { expiredOnce with sent := [sampleLoginRequest, sampleRecordRequest, sampleLoginRequest] }
      "1" sampleRecordRequest refreshedRecordRequest unauthorized okRecord
      "\x7b\"success\":true\x7d" () "" "\x7b\"id\":1,\"name\":\"John Doe\"\x7d" johnDoe
      rfl rfl rfl rfl rfl rfl rfl rfl rfl rfl rfl rfl).2.2.2⟩

/-! ### The round trip of a record through the envelope -/

set_option maxRecDepth 100000 in
/-- C6 fails as stated: the mock record with `ID = 2^53 + 1 = 9007199254740993`
comes back from the envelope with `ID = 9007199254740992`, because the untyped
stage holds the number as a `float64`. -/
theorem decodeEnvelope_roundtrip_fails :
    bigIdStudent.ID = 9007199254740993 ∧
    (decodeEnvelope (marshalEnvelope true (marshalStudent bigIdStudent) "ok")).toOption =
      some { bigIdStudent with ID := 9007199254740992 } ∧
    (decodeEnvelope (marshalEnvelope true (marshalStudent bigIdStudent) "ok")).toOption ≠
      some bigIdStudent := by
  decide

/-- C6 as amended: for every record whose `ID` and `Roll` (when present) have
magnitude at most `2^53`, whatever its strings, booleans and absent or present
optional fields, encoding it as the payload of an envelope with `success = true`
and any message, and decoding that the way `GetStudentByID` does (envelope with the
payload untyped, payload marshalled again, then decoded into `Student`) gives
back the same record. -/
theorem decodeEnvelope_roundtrip (s : Student) (m : String)
    (hID : s.ID.natAbs ≤ 2 ^ 53)
    (hRoll : (s.Roll.getD 0).natAbs ≤ 2 ^ 53) :
    decodeEnvelope (marshalEnvelope true (marshalStudent s) m) = .ok s := by
  have hRoll1 : ∀ r, s.Roll = some r → r.natAbs ≤ 2 ^ 53 := by
    intro r h
    rw [h] at hRoll
    exact hRoll
  rw [decodeEnvelope_envelope _ m (toValue_student_error s hID hRoll1), remarshal_student,
    remarshal_int _ hID, remarshal_intPtr _ hRoll1, remarshal_str, remarshal_str, remarshal_bool]
  simp only [remarshal_stringPtr]
  rw [unmarshalStudentJSON_sorted s hID hRoll1]

/-- C6 as amended, for the record of `GetMockStudent`. -/
theorem decodeEnvelope_roundtrip_witness :
    (GetMockStudent.ID.natAbs ≤ 2 ^ 53 ∧ (GetMockStudent.Roll.getD 0).natAbs ≤ 2 ^ 53) ∧
    decodeEnvelope (marshalEnvelope true (marshalStudent GetMockStudent) "ok") =
      .ok GetMockStudent :=
  ⟨⟨by decide, by decide⟩, decodeEnvelope_roundtrip GetMockStudent "ok" (by decide) (by decide)⟩

/-! ### Upstream failures -/

/-- C7 fails as stated: the record request is answered with status 404 and an
envelope with `success = false` whose message is `a"b`.  The status is checked
before the envelope is decoded, so the error is the status error, which quotes
the raw body; the message does not occur in it. -/
theorem GetStudentByID_status_error_hides_message :
    (escapingLib.unmarshalAPIResponse escapedBody).toOption.map
      (fun r => (r.Success, r.Message)) = some (false, "a\"b") ∧
    statusOf ((scriptedWorld [okLogin, escapedNotFound] []).upstream
      [sampleLoginRequest, sampleRecordRequest]) = some 404 ∧
    errorOf (GetStudentByID escapingLib sampleEnv (NewAPIClient escapingLib sampleEnv)
      (scriptedWorld [okLogin, escapedNotFound] []) "1").1 =
      some ("API returned status 404: " ++ escapedBody) ∧
    containsText ("API returned status 404: " ++ escapedBody) "a\"b" = false := by
  decide

/-- C7 as amended: let `resp` be the final response of the exchange, with body
`body`.  If the status is not 200, so in particular if it is not 2xx,
`GetStudentByID` returns no record and the error is
`API returned status <code>: <body>`; this check comes first, also when the body
is an envelope with `success = false`.  If the status is 200 and the body decodes
to an envelope with `success = false`, the error is `API request failed: `
followed by the envelope's message.  In both cases an envelope with
`success = false` yields no record. -/
theorem GetStudentByID_upstream_error {V : Type} (lib : Lib V) (env : Env) (c c1 : APIClient)
    (w w1 : World) (id : String) (resp : Response) (body : String)
    (hx : GetStudentByID.exchange lib env c w id = (.ok resp, c1, w1))
    (hbody : resp.Body = .ok body) :
    (∀ r, lib.unmarshalAPIResponse body = .ok r → r.Success = false →
      (∃ e, (GetStudentByID lib env c w id).1 = .error e) ∧
      (resp.StatusCode = 200 →
        (GetStudentByID lib env c w id).1 = .error ("API request failed: " ++ r.Message)) ∧
      (resp.StatusCode ≠ 200 →
        (GetStudentByID lib env c w id).1 =
          .error ("API returned status " ++ toString resp.StatusCode ++ ": " ++ body))) ∧
    (¬ (200 ≤ resp.StatusCode ∧ resp.StatusCode < 300) →
      (GetStudentByID lib env c w id).1 =
        .error ("API returned status " ++ toString resp.StatusCode ++ ": " ++ body)) ∧
    (resp.StatusCode ≠ 200 →
      (GetStudentByID lib env c w id).1 =
        .error ("API returned status " ++ toString resp.StatusCode ++ ": " ++ body)) := by
  have hg : (GetStudentByID lib env c w id).1 = GetStudentByID.decode lib resp := by
    unfold GetStudentByID
    rw [hx]
  have hne : resp.StatusCode ≠ 200 →
      GetStudentByID.decode lib resp =
        .error ("API returned status " ++ toString resp.StatusCode ++ ": " ++ body) := by
    intro hs
    unfold GetStudentByID.decode
    simp only [hbody]
    rw [if_pos hs]
  have hfalse : ∀ r, lib.unmarshalAPIResponse body = .ok r → r.Success = false →
      resp.StatusCode = 200 →
      GetStudentByID.decode lib resp = .error ("API request failed: " ++ r.Message) := by
    intro r hr hs h200
    unfold GetStudentByID.decode
    simp only [hbody, hr, hs]
    rw [if_neg (by simp [h200])]
    rfl
  rw [hg]
  refine ⟨?_, ?_, hne⟩
  · intro r hr hs
    refine ⟨?_, hfalse r hr hs, hne⟩
    by_cases h200 : resp.StatusCode = 200
    · exact ⟨_, hfalse r hr hs h200⟩
    · exact ⟨_, hne h200⟩
  · intro h2xx
    apply hne
    intro h200
    apply h2xx
    rw [h200]
    exact ⟨Nat.le_refl _, by decide⟩

/-- C7 against an upstream that answers the record request with status 404 and
an envelope with `success = false`. -/
theorem GetStudentByID_upstream_error_witness :
    (GetStudentByID.exchange sampleLib sampleEnv (NewAPIClient sampleLib sampleEnv)
        (scriptedWorld [okLogin, notFound] []) "1" =
        (.ok notFound, sampleSession,
          { scriptedWorld [okLogin, notFound] [] with
            sent := [sampleLoginRequest, sampleRecordRequest] }) ∧
      notFound.Body = .ok "\x7b\"success\":false,\"message\":\"not found\"\x7d" ∧
      notFound.StatusCode ≠ 200) ∧
    (GetStudentByID sampleLib sampleEnv (NewAPIClient sampleLib sampleEnv)
      (scriptedWorld [okLogin, notFound] []) "1").1 =
      .error ("API returned status " ++ toString notFound.StatusCode ++ ": " ++
        "\x7b\"success\":false,\"message\":\"not found\"\x7d") :=
  ⟨⟨rfl, rfl, by decide⟩,
    (GetStudentByID_upstream_error sampleLib sampleEnv (NewAPIClient sampleLib sampleEnv)
      sampleSession (scriptedWorld [okLogin, notFound] [])
      { scriptedWorld [okLogin, notFound] [] with
        sent := [sampleLoginRequest, sampleRecordRequest] }
      "1" notFound "\x7b\"success\":false,\"message\":\"not found\"\x7d" rfl rfl).2.2
      (by decide)⟩

/-- C8 fails as stated: a login answered with status 200 and the body `{"id":0}`
fails with the fixed error `login failed: invalid response`, in which neither the
status code nor the body occurs. -/
theorem authenticate_zero_id_error_has_no_status :
    zeroIdLogin.StatusCode = 200 ∧
    zeroIdLogin.Body.toOption = some "\x7b\"id\":0\x7d" ∧
    errorOf (authenticate sampleLib sampleEnv (NewAPIClient sampleLib sampleEnv)
      (scriptedWorld [zeroIdLogin] [])).1 = some "login failed: invalid response" ∧
    containsText "login failed: invalid response" "200" = false ∧
    containsText "login failed: invalid response" "\x7b\"id\":0\x7d" = false := by
  decide

/-- C8 as amended: once a login response has been received, `authenticate`
succeeds exactly when the status is 200, the body can be read and decodes, and the
decoded identity id is not zero.  With any other status it fails with
`login failed with status <code>: <body>`; with status 200 and id 0 it fails with
`login failed: invalid response`. -/
theorem authenticate_outcome {V : Type} (lib : Lib V) (env : Env) (c : APIClient) (w : World)
    (req : Request) (resp : Response)
    (hreq : loginRequest lib env c = .ok req)
    (hresp : w.upstream (w.sent ++ [req]) = .ok resp) :
    ((authenticate lib env c w).1 = .ok () ↔
      resp.StatusCode = 200 ∧
        ∃ body lr, resp.Body = .ok body ∧ lib.unmarshalLoginResponse body = .ok lr ∧ lr.ID ≠ 0) ∧
    (∀ body, resp.Body = .ok body → resp.StatusCode ≠ 200 →
      (authenticate lib env c w).1 =
        .error ("login failed with status " ++ toString resp.StatusCode ++ ": " ++ body)) ∧
    (∀ body lr, resp.Body = .ok body → resp.StatusCode = 200 →
      lib.unmarshalLoginResponse body = .ok lr → lr.ID = 0 →
      (authenticate lib env c w).1 = .error "login failed: invalid response") := by
  rw [authenticate_of_response lib env c w req resp hreq hresp]
  simp only
  refine ⟨⟨?_, ?_⟩, ?_, ?_⟩
  · intro h
    unfold loginOutcome at h
    cases hB : resp.Body with
    | error e => simp only [hB] at h; cases h
    | ok body =>
      simp only [hB] at h
      by_cases hs : resp.StatusCode ≠ 200
      · rw [if_pos hs] at h; cases h
      · rw [if_neg hs] at h
        cases hD : lib.unmarshalLoginResponse body with
        | error e => simp only [hD] at h; cases h
        | ok lr =>
          simp only [hD] at h
          by_cases hi : lr.ID = 0
          · rw [if_pos hi] at h; cases h
          · exact ⟨not_not.mp hs, body, lr, rfl, hD, hi⟩
  · rintro ⟨hs, body, lr, hB, hD, hi⟩
    unfold loginOutcome
    simp only [hB, hD]
    rw [if_neg (by simp [hs]), if_neg hi]
  · intro body hB hs
    unfold loginOutcome
    simp only [hB]
    rw [if_pos hs]
  · intro body lr hB hs hD hi
    unfold loginOutcome
    simp only [hB, hD]
    rw [if_neg (by simp [hs]), if_pos hi]

/-- C8 as amended, for a login answered with status 500. -/
theorem authenticate_outcome_witness :
    (loginRequest sampleLib sampleEnv (NewAPIClient sampleLib sampleEnv) = .ok sampleLoginRequest ∧
      (scriptedWorld [rejectedLogin] []).upstream
        ((scriptedWorld [rejectedLogin] []).sent ++ [sampleLoginRequest]) = .ok rejectedLogin ∧
      rejectedLogin.Body = .ok "boom" ∧ rejectedLogin.StatusCode ≠ 200) ∧
    (authenticate sampleLib sampleEnv (NewAPIClient sampleLib sampleEnv)
      (scriptedWorld [rejectedLogin] [])).1 =
      .error ("login failed with status " ++ toString rejectedLogin.StatusCode ++ ": " ++ "boom") :=
  ⟨⟨rfl, rfl, rfl, by decide⟩,
    (authenticate_outcome sampleLib sampleEnv (NewAPIClient sampleLib sampleEnv)
      (scriptedWorld [rejectedLogin] []) sampleLoginRequest rejectedLogin rfl rfl).2.1
      "boom" rfl (by decide)⟩

/-! ### The session invariant -/

/-- C9 fails as stated: after one `authenticate` call on a fresh client, answered
by an accepted login response that sets no cookie, the state is reachable, the
flag is true and the stored access token is empty. -/
theorem authenticated_with_empty_token :
    Reachable sampleLib (scriptedWorld [bareLogin] []).upstream (scriptedWorld [bareLogin] []).jar
      (authenticate sampleLib sampleEnv (NewAPIClient sampleLib sampleEnv)
        (scriptedWorld [bareLogin] [])).2.1
      (authenticate sampleLib sampleEnv (NewAPIClient sampleLib sampleEnv)
        (scriptedWorld [bareLogin] [])).2.2 ∧
    (authenticate sampleLib sampleEnv (NewAPIClient sampleLib sampleEnv)
      (scriptedWorld [bareLogin] [])).2.1.authenticated = true ∧
    (authenticate sampleLib sampleEnv (NewAPIClient sampleLib sampleEnv)
      (scriptedWorld [bareLogin] [])).2.1.authToken = "" :=
  ⟨Reachable.authenticate sampleEnv _ _ (Reachable.fresh sampleEnv), by decide, by decide⟩

/-- C9 as amended: in every state reachable from a freshly constructed client by
`authenticate` and `GetStudentByID` calls, against any upstream, the flag is true
only if some login request of the log was answered by an accepted response
(status 200, body decoding with a non-zero identity id), and a non-empty stored
access token is the last non-empty `accessToken` cookie of such a response.  The
flag does not imply that an access token is stored. -/
theorem reachable_session_invariant {V : Type} (lib : Lib V)
    (upstream : List Request → Except String Response) (jar : List Request → URL → List Cookie)
    (c : APIClient) (w : World) (h : Reachable lib upstream jar c w) :
    (c.authenticated = true → ∃ resp, AnsweredLogin w resp ∧ Accepted lib resp) ∧
    (c.authToken ≠ "" → ∃ resp, AnsweredLogin w resp ∧ Accepted lib resp ∧
      lastCookieValue "accessToken" resp.Cookies = some c.authToken) := by
  have hinv : SessionInv lib c w := by
    induction h with
    | fresh env =>
      refine ⟨?_, ?_⟩
      · intro ha; cases ha
      · intro ht; exact absurd rfl ht
    | authenticate env c w _ ih => exact SessionInv_authenticate lib env c w ih
    | getStudent env id c w _ ih => exact SessionInv_GetStudentByID lib env c w id ih
  exact hinv

/-- C9 as amended, for the state after a login that set no cookie: the flag is
true and the accepted login is in the log. -/
theorem reachable_session_invariant_witness :
    Reachable sampleLib (scriptedWorld [bareLogin] []).upstream (scriptedWorld [bareLogin] []).jar
      (authenticate sampleLib sampleEnv (NewAPIClient sampleLib sampleEnv)
        (scriptedWorld [bareLogin] [])).2.1
      (authenticate sampleLib sampleEnv (NewAPIClient sampleLib sampleEnv)
        (scriptedWorld [bareLogin] [])).2.2 ∧
    ∃ resp, AnsweredLogin (authenticate sampleLib sampleEnv (NewAPIClient sampleLib sampleEnv)
        (scriptedWorld [bareLogin] [])).2.2 resp ∧ Accepted sampleLib resp :=
  ⟨Reachable.authenticate sampleEnv _ _ (Reachable.fresh sampleEnv),
    (reachable_session_invariant sampleLib _ _ _ _
      (Reachable.authenticate sampleEnv _ _ (Reachable.fresh sampleEnv))).1 (by decide)⟩

/-! ### The anti-forgery token and the cookie jar -/

/-- C10, the code at the failing input: the login sets no cookie on its response
and the jar holds `csrfToken=jar-token`.  When the record request is built no
token is cached; `getCsrfToken` on that state finds the jar's token under `/` and
would cache it, but `GetStudentByID` never calls it: the record request is built
with no `x-csrf-token` header and no `Cookie` header, and the client still has no
token cached afterwards. -/
theorem GetStudentByID_ignores_cookie_jar :
    (ensureAuthenticated sampleLib sampleEnv (NewAPIClient sampleLib sampleEnv)
      tokenOnlyInJar).2.1.csrfToken = "" ∧
    getCsrfToken sampleLib
      (ensureAuthenticated sampleLib sampleEnv (NewAPIClient sampleLib sampleEnv)
        tokenOnlyInJar).2.1
      (ensureAuthenticated sampleLib sampleEnv (NewAPIClient sampleLib sampleEnv)
        tokenOnlyInJar).2.2 =
      ("jar-token",
        { (ensureAuthenticated sampleLib sampleEnv (NewAPIClient sampleLib sampleEnv)
            tokenOnlyInJar).2.1 with csrfToken := "jar-token" }) ∧
    (GetStudentByID sampleLib sampleEnv (NewAPIClient sampleLib sampleEnv) tokenOnlyInJar
      "1").2.2.sent = [sampleLoginRequest, bareRecordRequest] ∧
    bareRecordRequest.Get "x-csrf-token" = none ∧
    bareRecordRequest.Get "Cookie" = none ∧
    (GetStudentByID sampleLib sampleEnv (NewAPIClient sampleLib sampleEnv) tokenOnlyInJar
      "1").2.1.csrfToken = "" := by
  decide

/-! ### The cookies of a record request -/

/-- C11: for every session state `c`, the record request that `createRequest`
builds has a `Cookie` header exactly when one of the three cached values is not
empty, and the header is then the `; `-joined list of the `name=value` texts of
the non-empty values in the order `accessToken`, `refreshToken`, `csrfToken`; the
request has an `x-csrf-token` header exactly when the cached anti-forgery value
is not empty, its value is the cached one, and this is exactly when the
`csrfToken` pair is among the cookie pairs. -/
theorem createRequest_cookie_headers {V : Type} (lib : Lib V) (c : APIClient) (id : String)
    (req : Request) (h : createRequest lib c id = .ok req) :
    req.Get "Cookie" =
      (if sessionCookiePairs c = [] then none
       else some (Join ((sessionCookiePairs c).map cookiePairText) "; ")) ∧
    (sessionCookiePairs c = [] ↔ c.authToken = "" ∧ c.refreshToken = "" ∧ c.csrfToken = "") ∧
    sessionCookiePairs c =
      [("accessToken", c.authToken), ("refreshToken", c.refreshToken),
        ("csrfToken", c.csrfToken)].filter (fun p => p.2 ≠ "") ∧
    req.Get "x-csrf-token" = (if c.csrfToken = "" then none else some c.csrfToken) ∧
    (∀ v, req.Get "x-csrf-token" = some v ↔ ("csrfToken", v) ∈ sessionCookiePairs c) := by
  have hH := createRequest_Header lib c id req h
  rw [cookieParts_eq_pairs] at hH
  have hnil : (sessionCookiePairs c).map cookiePairText = [] ↔ sessionCookiePairs c = [] :=
    List.map_eq_nil_iff
  have hcookie : req.Get "Cookie" =
      (if sessionCookiePairs c = [] then none
       else some (Join ((sessionCookiePairs c).map cookiePairText) "; ")) := by
    unfold Request.Get
    rw [hH, find_Cookie_header]
    by_cases hn : sessionCookiePairs c = []
    · rw [if_pos (hnil.mpr hn), if_pos hn]
    · rw [if_neg (fun h1 => hn (hnil.mp h1)), if_neg hn]
  have hcsrf : req.Get "x-csrf-token" = (if c.csrfToken = "" then none else some c.csrfToken) := by
    unfold Request.Get
    rw [hH, find_csrf_header]
    by_cases hx : c.csrfToken = ""
    · rw [if_neg (not_not.mpr hx), if_pos hx]
    · rw [if_pos hx, if_neg hx]
  refine ⟨hcookie, sessionCookiePairs_nil c, rfl, hcsrf, ?_⟩
  intro v
  rw [hcsrf, csrf_mem_sessionCookiePairs]
  by_cases hx : c.csrfToken = ""
  · rw [if_pos hx]
    constructor
    · intro h1; cases h1
    · rintro ⟨h1, _⟩; exact absurd hx h1
  · rw [if_neg hx]
    constructor
    · intro h1
      cases h1
      exact ⟨hx, rfl⟩
    · rintro ⟨_, h2⟩
      rw [h2]

/-- C11 for the session after `okLogin`: all three pairs and the header. -/
theorem createRequest_cookie_headers_witness :
    createRequest sampleLib sampleSession "1" = .ok sampleRecordRequest ∧
    sampleRecordRequest.Get "Cookie" =
      some "accessToken=a1; refreshToken=r1; csrfToken=x1" ∧
    sampleRecordRequest.Get "x-csrf-token" = some "x1" :=
  ⟨rfl,
    (createRequest_cookie_headers sampleLib sampleSession "1" sampleRecordRequest rfl).1.trans
      (by decide),
    (createRequest_cookie_headers sampleLib sampleSession "1" sampleRecordRequest rfl).2.2.2.1.trans
      (by decide)⟩

/-! ### The format of the request path -/

/-- C12: let `parts` be the request path (`r.URL.Path`, which has no query
string) without the prefix `/api/v1/students/`, split on `/`.  If `parts` has fewer
than two elements or `parts[1]` is not `report`, the handler answers 400 with the
`Invalid URL format` message, whatever `parts[0]` is and without any network call.
Otherwise the identifier is `parts[0]`: it is what `Atoi` is applied to and what is
passed to `GetStudentByID`, whose failure is reported with status 500. -/
theorem GenerateStudentReport_url_format {V : Type} (lib : Lib V) (env : Env) (w : World)
    (urlPath : String) :
    (((requestParts urlPath).length < 2 ∨ (requestParts urlPath).get? 1 ≠ some "report") →
      GenerateStudentReport lib env w urlPath =
        (httpError "Invalid URL format. Expected: /api/v1/students/\x7bid\x7d/report" 400, w) ∧
      (GenerateStudentReport lib env w urlPath).1.Code = 400 ∧
      containsText (GenerateStudentReport lib env w urlPath).1.Body "Invalid URL format" = true) ∧
    (¬ ((requestParts urlPath).length < 2 ∨ (requestParts urlPath).get? 1 ≠ some "report") →
      (Atoi ((requestParts urlPath).headD "") = none →
        GenerateStudentReport lib env w urlPath = (httpError "Invalid student ID" 400, w)) ∧
      (∀ n, Atoi ((requestParts urlPath).headD "") = some n →
        (GenerateStudentReport lib env w urlPath).2 =
          (GetStudentByID lib env (NewAPIClient lib env) w
            ((requestParts urlPath).headD "")).2.2 ∧
        ∀ e, (GetStudentByID lib env (NewAPIClient lib env) w
            ((requestParts urlPath).headD "")).1 = .error e →
          (GenerateStudentReport lib env w urlPath).1 =
            httpError ("Failed to fetch student data: " ++ e) 500)) := by
  refine ⟨?_, ?_⟩
  · intro hbad
    have hres : GenerateStudentReport lib env w urlPath =
        (httpError "Invalid URL format. Expected: /api/v1/students/\x7bid\x7d/report" 400, w) := by
      unfold GenerateStudentReport
      simp only [requestParts] at hbad
      simp only [hbad, if_true]
    rw [hres]
    refine ⟨rfl, rfl, ?_⟩
    show containsText
      (httpError "Invalid URL format. Expected: /api/v1/students/\x7bid\x7d/report" 400).Body
      "Invalid URL format" = true
    decide
  · intro hok
    simp only [requestParts] at hok
    refine ⟨?_, ?_⟩
    · intro hid
      unfold GenerateStudentReport
      simp only [requestParts] at hid
      simp only [hok, if_false, hid]
    · intro n hid
      simp only [requestParts] at hid
      refine ⟨?_, ?_⟩
      · unfold GenerateStudentReport
        simp only [hok, if_false, hid, requestParts]
        split
        · rfl
        · split <;> rfl
      · intro e he
        simp only [requestParts] at he
        unfold GenerateStudentReport
        simp only [hok, if_false, hid, he]

/-- C12 on the paths of the tests: a missing or wrong second piece gives the
format error even when the identifier is not numeric, and the identifier of
`/api/v1/students/123/report` is `123`. -/
theorem GenerateStudentReport_url_format_witness :
    (GenerateStudentReport sampleLib sampleEnv (scriptedWorld [okLogin, okRecord] [])
      "/api/v1/students/1").1.Body =
      "Invalid URL format. Expected: /api/v1/students/\x7bid\x7d/report\n" ∧
    (GenerateStudentReport sampleLib sampleEnv (scriptedWorld [okLogin, okRecord] [])
      "/api/v1/students/1/wrong").1.Code = 400 ∧
    (GenerateStudentReport sampleLib sampleEnv (scriptedWorld [okLogin, okRecord] [])
      "/api/v1/students/abc").1.Body =
      "Invalid URL format. Expected: /api/v1/students/\x7bid\x7d/report\n" ∧
    (requestParts "/api/v1/students/123/report").headD "" = "123" ∧
    (requestParts "/api/v1/students/456/report").headD "" = "456" :=
  ⟨congrArg (fun r => r.1.Body)
      ((GenerateStudentReport_url_format sampleLib sampleEnv
        (scriptedWorld [okLogin, okRecord] []) "/api/v1/students/1").1 (by decide)).1,
    ((GenerateStudentReport_url_format sampleLib sampleEnv
        (scriptedWorld [okLogin, okRecord] []) "/api/v1/students/1/wrong").1 (by decide)).2.1,
    congrArg (fun r => r.1.Body)
      ((GenerateStudentReport_url_format sampleLib sampleEnv
        (scriptedWorld [okLogin, okRecord] []) "/api/v1/students/abc").1 (by decide)).1,
    by decide, by decide⟩

/-! ### Placeholders for absent values -/

/-- C13: `GetValueOrNA` is `N/A` for an absent or empty string and the string
itself otherwise; `FormatDate` is `N/A` on the same inputs, so it agrees with
`GetValueOrNA` there, and it never returns the empty string; `GetIntValueOrNA` is
`N/A` exactly when the value is absent and the decimal rendering of the integer
otherwise, `0` included. -/
theorem placeholders_for_absent_values :
    (∀ v : Option String, (v = none ∨ v = some "") → GetValueOrNA v = "N/A") ∧
    (∀ s : String, s ≠ "" → GetValueOrNA (some s) = s) ∧
    (∀ v : Option String, (v = none ∨ v = some "") →
      FormatDate v = "N/A" ∧ FormatDate v = GetValueOrNA v) ∧
    (∀ v : Option String, FormatDate v ≠ "") ∧
    (∀ v : Option Int, GetIntValueOrNA v = "N/A" ↔ v = none) ∧
    (∀ n : Int, GetIntValueOrNA (some n) = toString n) ∧
    GetIntValueOrNA (some 0) = "0" ∧
    GetIntValueOrNA (some (-15)) = "-15" := by
  refine ⟨?_, ?_, ?_, FormatDate_ne_empty, ?_, fun _ => rfl, by decide, by decide⟩
  · rintro v (h | h) <;> subst h <;> rfl
  · intro s hs
    unfold GetValueOrNA
    simp only
    rw [if_neg hs]
  · rintro v (h | h) <;> subst h <;> exact ⟨rfl, rfl⟩
  · intro v
    cases v with
    | none => exact ⟨fun _ => rfl, fun _ => rfl⟩
    | some n =>
      constructor
      · intro h
        exact absurd h (toString_int_ne_NA n)
      · intro h
        cases h

/-! ### Stored tokens are never cleared -/

/-- C14: (1) along every sequence of logins (whatever their outcome), 401
invalidations, `GetStudentByID` calls and `getCsrfToken` calls on one client, a
token field that is not empty stays not empty.  (2) A login whose response has no cookie of a given name
with a non-empty value leaves the field of that name at its previous value.
(3) When the first record request is answered 401 and the re-login is accepted,
the retried request is built from a session in which every field whose cookie
was not re-issued still has the value of the earlier login, so that value is
among the cookie pairs of the retried request; if none of the three cookies is
re-issued the retried request is the first request again. -/
theorem tokens_never_cleared {V : Type} (lib : Lib V) :
    (∀ s t : APIClient × World, Relation.ReflTransGen (SessionStep lib) s t →
      (s.1.authToken ≠ "" → t.1.authToken ≠ "") ∧
      (s.1.refreshToken ≠ "" → t.1.refreshToken ≠ "") ∧
      (s.1.csrfToken ≠ "" → t.1.csrfToken ≠ "")) ∧
    (∀ (env : Env) (c : APIClient) (w : World) (req : Request) (resp : Response),
      loginRequest lib env c = .ok req → w.upstream (w.sent ++ [req]) = .ok resp →
      ((∀ k ∈ resp.Cookies, k.Name = "accessToken" → k.Value = "") →
        (authenticate lib env c w).2.1.authToken = c.authToken) ∧
      ((∀ k ∈ resp.Cookies, k.Name = "refreshToken" → k.Value = "") →
        (authenticate lib env c w).2.1.refreshToken = c.refreshToken) ∧
      ((∀ k ∈ resp.Cookies, k.Name = "csrfToken" → k.Value = "") →
        (authenticate lib env c w).2.1.csrfToken = c.csrfToken)) ∧
    (∀ (env : Env) (c c1 c2 : APIClient) (w w1 w2 : World) (id : String)
      (req loginReq retryReq : Request) (resp resp1 : Response),
      ensureAuthenticated lib env c w = (.ok (), c1, w1) →
      createRequest lib c1 id = .ok req →
      w1.upstream (w1.sent ++ [req]) = .ok resp →
      resp.StatusCode = 401 →
      loginRequest lib env { c1 with authenticated := false } = .ok loginReq →
      w1.upstream (w1.sent ++ [req] ++ [loginReq]) = .ok resp1 →
      authenticate lib env { c1 with authenticated := false }
        { w1 with sent := w1.sent ++ [req] } = (.ok (), c2, w2) →
      createRequest lib c2 id = .ok retryReq →
      (GetStudentByID lib env c w id).2.2.sent.getLast? = some retryReq ∧
      ((∀ k ∈ resp1.Cookies, k.Name = "accessToken" → k.Value = "") →
        c2.authToken = c1.authToken ∧
        (c1.authToken ≠ "" → ("accessToken", c1.authToken) ∈ sessionCookiePairs c2)) ∧
      ((∀ k ∈ resp1.Cookies, k.Name = "refreshToken" → k.Value = "") →
        c2.refreshToken = c1.refreshToken ∧
        (c1.refreshToken ≠ "" → ("refreshToken", c1.refreshToken) ∈ sessionCookiePairs c2)) ∧
      ((∀ k ∈ resp1.Cookies, k.Name = "csrfToken" → k.Value = "") →
        c2.csrfToken = c1.csrfToken ∧
        (c1.csrfToken ≠ "" → ("csrfToken", c1.csrfToken) ∈ sessionCookiePairs c2)) ∧
      ((∀ k ∈ resp1.Cookies,
          (k.Name = "accessToken" ∨ k.Name = "refreshToken" ∨ k.Name = "csrfToken") →
          k.Value = "") →
        retryReq = req)) := by
  refine ⟨?_, ?_, ?_⟩
  · intro s t h
    exact TokensKept_steps lib s t h
  · intro env c w req resp hreq hresp
    exact authenticate_not_reissued lib env c w req resp hreq hresp
  · intro env c c1 c2 w w1 w2 id req loginReq retryReq resp resp1 hens hreq hresp h401 hlogin
      hresp1 hb hretry
    have hkeep := authenticate_not_reissued lib env { c1 with authenticated := false }
      { w1 with sent := w1.sent ++ [req] } loginReq resp1 hlogin hresp1
    rw [hb] at hkeep
    simp only at hkeep
    have hbase : c2.baseURL = c1.baseURL := by
      have := authenticate_baseURL lib env { c1 with authenticated := false }
        { w1 with sent := w1.sent ++ [req] }
      rw [hb] at this
      exact this
    have hmem := mem_sessionCookiePairs c2
    have hx := exchange_after_401 lib env c c1 c2 w w1 w2 id req resp (.ok ()) hens hreq hresp
      h401 hb
    simp only [hretry] at hx
    refine ⟨?_, ?_, ?_, ?_, ?_⟩
    · unfold GetStudentByID
      rw [hx]
      cases w2.upstream (w2.sent ++ [retryReq]) <;> simp
    · intro h
      have h1 := hkeep.1 h
      refine ⟨h1, fun hne => ?_⟩
      rw [← h1] at hne ⊢
      exact hmem.1 hne
    · intro h
      have h1 := hkeep.2.1 h
      refine ⟨h1, fun hne => ?_⟩
      rw [← h1] at hne ⊢
      exact hmem.2.1 hne
    · intro h
      have h1 := hkeep.2.2 h
      refine ⟨h1, fun hne => ?_⟩
      rw [← h1] at hne ⊢
      exact hmem.2.2 hne
    · intro h
      have ha := hkeep.1 (fun k hk hn => h k hk (Or.inl hn))
      have hr := hkeep.2.1 (fun k hk hn => h k hk (Or.inr (Or.inl hn)))
      have hc := hkeep.2.2 (fun k hk hn => h k hk (Or.inr (Or.inr hn)))
      have heq := createRequest_congr lib c1 c2 id hbase ha hr hc
      rw [hretry, hreq] at heq
      cases heq
      rfl

/-- C14 against an upstream whose session expires once and whose second login
re-issues the access token only (the anti-forgery cookie comes back empty, the
refresh cookie not at all): the retried request carries the new access token
and the refresh and anti-forgery values of the first login. -/
theorem tokens_never_cleared_witness :
    (GetStudentByID sampleLib sampleEnv (NewAPIClient sampleLib sampleEnv) partlyReissued
      "1").2.2.sent.getLast? = some staleRecordRequest ∧
    staleSession.refreshToken = sampleSession.refreshToken ∧
    ("csrfToken", "x1") ∈ sessionCookiePairs staleSession ∧
    staleRecordRequest.Get "Cookie" = some "accessToken=a2; refreshToken=r1; csrfToken=x1" :=
  ⟨((tokens_never_cleared sampleLib).2.2 sampleEnv (NewAPIClient sampleLib sampleEnv)
      sampleSession staleSession partlyReissued
      { partlyReissued with sent := [sampleLoginRequest] }
      { partlyReissued with sent := [sampleLoginRequest, sampleRecordRequest, sampleLoginRequest] }
      "1" sampleRecordRequest sampleLoginRequest staleRecordRequest unauthorized accessOnlyLogin
      rfl rfl rfl rfl rfl rfl rfl rfl).1,
    (((tokens_never_cleared sampleLib).2.2 sampleEnv (NewAPIClient sampleLib sampleEnv)
      sampleSession staleSession partlyReissued
      { partlyReissued with sent := [sampleLoginRequest] }
      { partlyReissued with sent := [sampleLoginRequest, sampleRecordRequest, sampleLoginRequest] }
      "1" sampleRecordRequest sampleLoginRequest staleRecordRequest unauthorized accessOnlyLogin
      rfl rfl rfl rfl rfl rfl rfl rfl).2.2.1 (by decide)).1,
    (((tokens_never_cleared sampleLib).2.2 sampleEnv (NewAPIClient sampleLib sampleEnv)
      sampleSession staleSession partlyReissued
      { partlyReissued with sent := [sampleLoginRequest] }
      { partlyReissued with sent := [sampleLoginRequest, sampleRecordRequest, sampleLoginRequest] }
      "1" sampleRecordRequest sampleLoginRequest staleRecordRequest unauthorized accessOnlyLogin
      rfl rfl rfl rfl rfl rfl rfl rfl).2.2.2.1 (by decide)).2 (by decide),
    by decide⟩

end PdfGenerator
